import Mathlib

/-!
# NanoProd/plugins/DiLeptonBuilder.cc

Shallow embedding of `DiLeptonBuilder<Lepton>::produce` and of the accessors
`getTrack` / `getP4`, followed by the properties of the pairing / selection /
vertex-fit pipeline.

Conventions of the embedding.

* The scalar type `F` stands for the floating-point values carried by the
  candidate.  Only the operations the source applies to them are required
  (`0`, `1`, unary minus, `+`, `*`, `sqrt`), with no algebraic law assumed, so
  every statement holds for any interpretation of these operations.  The
  narrowing done by `addUserFloat` (double to float) is taken as part of the
  value handed to it.  In `getP4<reco::Track>` the narrowing to `float` and the
  single-precision arithmetic are explicit (`HasFloat`).
* Everything the plugin obtains from outside this file (the lepton classes,
  `reco::deltaR`, the `TransientTrackBuilder`, `KinVtxFitter`) is a field of
  `Services`.
* A `std::exception` thrown by the `KinVtxFitter` constructor is `Except.error`
  carrying `e.what()`; the accessors of a constructed fitter are plain getters.
* The text written to `std::cout` in the `catch` block is not recorded.
* The fit engine is reached through `invokeFit` only, which returns the
  outcome of the constructor together with the engine's call log extended by
  the arguments of this invocation (`ProduceState.calls`).
* `ProduceState.fits` is a ghost trace: one entry `(l1_idx, l2_idx)` per
  `KinVtxFitter` construction, in execution order.
-/

namespace NanoProd

/-! ## Data model -/

/-- Class of scalars with the square root used by the source (`sqrt` of `<cmath>`). -/
class HasSqrt (F : Type) where
  /-- Square root of `<cmath>`. -/
  sqrt : F → F

/-- Space point: `reco::Candidate::Point`, `GlobalPoint`. -/
structure Point (F : Type) where
  x : F
  y : F
  z : F
deriving DecidableEq

/-- Default-constructed point `reco::Candidate::Point()`: the origin. -/
def Point.null {F : Type} [Zero F] : Point F := ⟨0, 0, 0⟩

/-- Four-vector `math::XYZTLorentzVector{x, y, z, t}`. -/
structure XYZTLorentzVector (F : Type) where
  px : F
  py : F
  pz : F
  e : F
deriving DecidableEq

/-- Component-wise sum, `operator+` of the four-vectors. -/
instance {F : Type} [Add F] : Add (XYZTLorentzVector F) where
  add a b := ⟨a.px + b.px, a.py + b.py, a.pz + b.pz, a.e + b.e⟩

/-- The part of `pat::CompositeCandidate` the plugin touches.  `userFloats` and
`userInts` keep the labelled values in the order they were added. -/
structure CompositeCandidate (F : Type) where
  p4 : XYZTLorentzVector F
  charge : Int
  vertex : Point F
  userFloats : List (String × F)
  userInts : List (String × Int)
deriving DecidableEq

namespace CompositeCandidate

variable {F : Type}

/-- Default construction `pat::CompositeCandidate lepton_pair;`. -/
def new [Zero F] : CompositeCandidate F :=
  { p4 := ⟨0, 0, 0, 0⟩, charge := 0, vertex := Point.null, userFloats := [], userInts := [] }

/-- Method `setP4`. -/
def setP4 (c : CompositeCandidate F) (p : XYZTLorentzVector F) : CompositeCandidate F :=
  { c with p4 := p }

/-- Method `setCharge`. -/
def setCharge (c : CompositeCandidate F) (q : Int) : CompositeCandidate F :=
  { c with charge := q }

/-- Method `setVertex`. -/
def setVertex (c : CompositeCandidate F) (v : Point F) : CompositeCandidate F :=
  { c with vertex := v }

/-- Method `addUserFloat(label, data)`: a further labelled value; an entry
already present under the label stays in front of it. -/
def addUserFloat (c : CompositeCandidate F) (label : String) (data : F) : CompositeCandidate F :=
  { c with userFloats := c.userFloats ++ [(label, data)] }

/-- Method `addUserInt(label, data)`.  The index handed over is a position in an
in-memory event collection, below `2^31`, where the conversion from `size_t` to
the stored `int32_t` is the identity; it is the cast from `Nat` here. -/
def addUserInt (c : CompositeCandidate F) (label : String) (data : Int) : CompositeCandidate F :=
  { c with userInts := c.userInts ++ [(label, data)] }

/-- Accessor `vx()`. -/
def vx (c : CompositeCandidate F) : F := c.vertex.x

/-- Accessor `vy()`. -/
def vy (c : CompositeCandidate F) : F := c.vertex.y

/-- Accessor `vz()`. -/
def vz (c : CompositeCandidate F) : F := c.vertex.z

/-- Value stored under a float label (the first entry with that label), `none`
when the label is absent. -/
def userFloat (c : CompositeCandidate F) (label : String) : Option F :=
  (c.userFloats.find? (fun kv => kv.1 == label)).map (fun kv => kv.2)

/-- Value stored under an integer label, `none` when the label is absent. -/
def userInt (c : CompositeCandidate F) (label : String) : Option Int :=
  (c.userInts.find? (fun kv => kv.1 == label)).map (fun kv => kv.2)

end CompositeCandidate

/-- Result of `fitter.fitted_candidate()`: the mass and the entry (6,6) of
`kinematicParametersError().matrix()`. -/
structure KinematicState (F : Type) where
  mass : F
  matrix66 : F
deriving DecidableEq

/-- Result of `fitter.fitted_vtx_uncertainty()`: the diagonal terms read by the plugin. -/
structure GlobalError (F : Type) where
  cxx : F
  cyy : F
  czz : F
deriving DecidableEq

/-- A constructed `KinVtxFitter`, as seen through the getters the plugin calls. -/
structure KinVtxFitter (F : Type) where
  success : Bool
  chi2 : F
  dof : F
  prob : F
  fitted_candidate : KinematicState F
  fitted_vtx : Point F
  fitted_vtx_uncertainty : GlobalError F
deriving DecidableEq

/-- A lepton kind as the template sees it: the two accessors specialised per
kind, `charge()` and `reco::deltaR`. -/
structure LeptonAccess (L T F : Type) where
  getTrack : L → T
  getP4 : L → XYZTLorentzVector F
  charge : L → Int
  deltaR : L → L → F

/-- Bare track `reco::Track`: momentum components and charge. -/
structure Track (F : Type) where
  px : F
  py : F
  pz : F
  charge : Int
deriving DecidableEq

/-- Lepton with a four-momentum of its own and a best track (`pat::Muon`, `pat::Electron`). -/
structure PatLepton (F : Type) where
  p4 : XYZTLorentzVector F
  bestTrack : Track F
  charge : Int
deriving DecidableEq

/-- Generic `getTrack`: `*lep.bestTrack()`. -/
def getTrack {F : Type} (lep : PatLepton F) : Track F := lep.bestTrack

/-- Specialisation `getTrack<reco::Track>`: the track itself. -/
def getTrack_Track {F : Type} (lep : Track F) : Track F := lep

/-- Generic `getP4`: `lep.p4()`. -/
def getP4 {F : Type} (lep : PatLepton F) : XYZTLorentzVector F := lep.p4

/-- Single precision next to the scalars `F`: `G` is the type `float`,
`narrow` the conversion of a scalar to `float` (as in `float px = lep.px()`),
`widen` the conversion of a `float` back to a scalar. -/
class HasFloat (F : Type) (G : outParam Type) where
  /-- Conversion to `float`. -/
  narrow : F → G
  /-- Conversion of a `float` to a scalar. -/
  widen : G → F

/-- Specialisation `getP4<reco::Track>`: `px`, `py`, `pz` are narrowed to
`float`, the energy `sqrt(px*px + py*py + pz*pz)` is evaluated on these `float`
values, and the four components are handed to the four-vector. -/
def getP4_Track {F G : Type} [HasFloat F G] [Add G] [Mul G] [HasSqrt G] (lep : Track F) :
    XYZTLorentzVector F :=
  let px : G := HasFloat.narrow lep.px
  let py : G := HasFloat.narrow lep.py
  let pz : G := HasFloat.narrow lep.pz
  ⟨HasFloat.widen px, HasFloat.widen py, HasFloat.widen pz,
    HasFloat.widen (HasSqrt.sqrt (px * px + py * py + pz * pz))⟩

/-- Instantiations `DiMuonBuilder` and `DiElectronBuilder`. -/
def patAccess {F : Type} (deltaR : PatLepton F → PatLepton F → F) :
    LeptonAccess (PatLepton F) (Track F) F :=
  { getTrack := getTrack, getP4 := getP4, charge := fun l => l.charge, deltaR := deltaR }

/-- Instantiation `DiTrackBuilder`. -/
def trackAccess {F G : Type} [HasFloat F G] [Add G] [Mul G] [HasSqrt G]
    (deltaR : Track F → Track F → F) :
    LeptonAccess (Track F) (Track F) F :=
  { getTrack := getTrack_Track, getP4 := getP4_Track, charge := fun l => l.charge,
    deltaR := deltaR }

/-- Constant `LEP_SIGMA`. -/
def LEP_SIGMA {F : Type} [OfScientific F] : F := 0.0000001

/-- Constant `LEP_MASS`. -/
def LEP_MASS {F : Type} [OfScientific F] : F := 0.1056584

/-- What `produce` reaches outside the plugin: the lepton kind, the transient
track builder fetched from the event setup, and the `KinVtxFitter` constructor
(tracks, masses, sigmas), which either returns a fitter or throws. -/
structure Services (L T TT F : Type) where
  lep : LeptonAccess L T F
  build : T → TT
  fit : List TT → List F → List F → Except String (KinVtxFitter F)

/-- The configured plugin: the four `StringCutObjectSelector` members. -/
structure DiLeptonBuilder (L F : Type) where
  l1_selection_ : L → Bool
  l2_selection_ : L → Bool
  pre_vtx_selection_ : CompositeCandidate F → Bool
  post_vtx_selection_ : CompositeCandidate F → Bool

/-- The event: the collection read through `src_` and the collections put so far. -/
structure Event (L F : Type) where
  leptons : List L
  products : List (List (CompositeCandidate F))

/-- One invocation of the fit engine, as the engine sees it: the arguments of
the `KinVtxFitter` constructor. -/
structure FitCall (TT F : Type) where
  tracks : List TT
  masses : List F
  sigmas : List F
deriving DecidableEq

/-- Local state of `produce`: the output under construction, the ghost trace
of the index pairs for which a fitter was constructed, and the call log of the
fit engine. -/
structure ProduceState (TT F : Type) where
  ret_value : List (CompositeCandidate F)
  fits : List (Nat × Nat)
  calls : List (FitCall TT F)

/-! ## Operations of `produce` -/

section Operations

variable {L T TT F : Type}

/-- Lines 101-107: the provisional candidate, carrying the summed momentum, the
summed charge, `lep_deltaR` and the two indices. -/
def provisional [Zero F] [Add F] (sv : Services L T TT F)
    (l1_idx : Nat) (l1 : L) (l2_idx : Nat) (l2 : L) : CompositeCandidate F :=
  let lepton_pair : CompositeCandidate F := CompositeCandidate.new
  let lepton_pair := lepton_pair.setP4 (sv.lep.getP4 l1 + sv.lep.getP4 l2)
  let lepton_pair := lepton_pair.setCharge (sv.lep.charge l1 + sv.lep.charge l2)
  let lepton_pair := lepton_pair.addUserFloat "lep_deltaR" (sv.lep.deltaR l1 l2)
  let lepton_pair := lepton_pair.addUserInt "l1_idx" (l1_idx : Int)
  let lepton_pair := lepton_pair.addUserInt "l2_idx" (l2_idx : Int)
  lepton_pair

/-- Labels written by the `catch` block, in its order. -/
def catchLabels : List String :=
  ["sv_chi2", "sv_ndof", "sv_prob", "fitted_mass", "fitted_massErr",
   "vtx_x", "vtx_y", "vtx_z", "vtx_ex", "vtx_ey", "vtx_ez"]

/-- Lines 123-145: the body of the `try` block once the fitter is constructed. -/
def tryBody [Zero F] [One F] [Neg F] [HasSqrt F]
    (fitter : KinVtxFitter F) (lepton_pair : CompositeCandidate F) : CompositeCandidate F :=
  let lepton_pair :=
    if fitter.success then
      lepton_pair.setVertex ⟨fitter.fitted_vtx.x, fitter.fitted_vtx.y, fitter.fitted_vtx.z⟩
    else
      lepton_pair.setVertex Point.null
  let lepton_pair := lepton_pair.addUserFloat "sv_chi2" fitter.chi2
  let lepton_pair := lepton_pair.addUserFloat "sv_ndof" fitter.dof
  let lepton_pair := lepton_pair.addUserFloat "sv_prob" fitter.prob
  let lepton_pair := lepton_pair.addUserFloat "fitted_mass"
    (if fitter.success then fitter.fitted_candidate.mass else -1)
  let lepton_pair := lepton_pair.addUserFloat "fitted_massErr"
    (if fitter.success then HasSqrt.sqrt fitter.fitted_candidate.matrix66 else -1)
  let lepton_pair := lepton_pair.addUserFloat "vtx_x" lepton_pair.vx
  let lepton_pair := lepton_pair.addUserFloat "vtx_y" lepton_pair.vy
  let lepton_pair := lepton_pair.addUserFloat "vtx_z" lepton_pair.vz
  let lepton_pair := lepton_pair.addUserFloat "vtx_ex"
    (if fitter.success then HasSqrt.sqrt fitter.fitted_vtx_uncertainty.cxx else -1)
  let lepton_pair := lepton_pair.addUserFloat "vtx_ey"
    (if fitter.success then HasSqrt.sqrt fitter.fitted_vtx_uncertainty.cyy else -1)
  let lepton_pair := lepton_pair.addUserFloat "vtx_ez"
    (if fitter.success then HasSqrt.sqrt fitter.fitted_vtx_uncertainty.czz else -1)
  lepton_pair

/-- Lines 146-153: the `catch` block, `addUserFloat(str, -1.)` for each label. -/
def catchBody [One F] [Neg F] (lepton_pair : CompositeCandidate F) : CompositeCandidate F :=
  catchLabels.foldl (fun c str => c.addUserFloat str (-1)) lepton_pair

/-- The boundary to the fit engine: one run of the `KinVtxFitter` constructor.
It yields what the constructor does (a fitter, or a thrown exception) and
extends the call log of the engine by this invocation.  The engine is applied
nowhere else. -/
def invokeFit (sv : Services L T TT F) (tracks : List TT) (masses sigmas : List F) :
    StateM (ProduceState TT F) (Except String (KinVtxFitter F)) :=
  fun st =>
    (sv.fit tracks masses sigmas,
      { st with calls := st.calls ++ [⟨tracks, masses, sigmas⟩] })

/-- Lines 113-122: the two transient tracks and the construction
`KinVtxFitter fitter({tt_l1, tt_l2}, {LEP_MASS, LEP_MASS}, {LEP_SIGMA, LEP_SIGMA})`,
which returns the fitter or throws. -/
def constructFitterLogged [OfScientific F] (sv : Services L T TT F) (l1 l2 : L) :
    StateM (ProduceState TT F) (Except String (KinVtxFitter F)) := do
  let tt_l1 := sv.build (sv.lep.getTrack l1)
  let tt_l2 := sv.build (sv.lep.getTrack l2)
  invokeFit sv [tt_l1, tt_l2] [LEP_MASS, LEP_MASS] [LEP_SIGMA, LEP_SIGMA]

/-- Lines 113-153: fitter construction under `try`, with the `catch` block for a
thrown `std::exception`; yields the candidate after the fit stage. -/
def vertexFitLogged [Zero F] [One F] [Neg F] [HasSqrt F] [OfScientific F]
    (sv : Services L T TT F) (l1 l2 : L) (lepton_pair : CompositeCandidate F) :
    StateM (ProduceState TT F) (CompositeCandidate F) := do
  match ← constructFitterLogged sv l1 l2 with
  | .ok fitter => pure (tryBody fitter lepton_pair)
  | .error _ => pure (catchBody lepton_pair)

/-- Outcome of the fitter construction of lines 113-122 for two leptons: the
fitter, or the thrown exception. -/
def constructFitter [OfScientific F] (sv : Services L T TT F) (l1 l2 : L) :
    Except String (KinVtxFitter F) :=
  (constructFitterLogged sv l1 l2 ⟨[], [], []⟩).1

/-- Candidate after the fit stage of lines 113-153. -/
def vertexFit [Zero F] [One F] [Neg F] [HasSqrt F] [OfScientific F] (sv : Services L T TT F)
    (l1 l2 : L) (lepton_pair : CompositeCandidate F) : CompositeCandidate F :=
  (vertexFitLogged sv l1 l2 lepton_pair ⟨[], [], []⟩).1

/-- Lines 98-158: one pass of the inner loop body for `l2 = leptons->at(l2_idx)`,
acting on the state of `produce`; `return` stands for `continue`. -/
def innerBody [Zero F] [One F] [Neg F] [Add F] [HasSqrt F] [OfScientific F]
    (b : DiLeptonBuilder L F) (sv : Services L T TT F)
    (l1_idx : Nat) (l1 : L) (l2_idx : Nat) (l2 : L) : StateM (ProduceState TT F) Unit := do
  if !b.l2_selection_ l2 then return
  let lepton_pair := provisional sv l1_idx l1 l2_idx l2
  if !b.pre_vtx_selection_ lepton_pair then return
  modify fun st => { st with fits := st.fits ++ [(l1_idx, l2_idx)] }
  let lepton_pair ← vertexFitLogged sv l1 l2 lepton_pair
  if !b.post_vtx_selection_ lepton_pair then return
  modify fun st => { st with ret_value := st.ret_value ++ [lepton_pair] }

/-- Line 97: `for (l2_idx = ...; l2_idx < leptons->size(); ++l2_idx)`, entered
at `l2_idx`. -/
def innerLoop [Zero F] [One F] [Neg F] [Add F] [HasSqrt F] [OfScientific F]
    (b : DiLeptonBuilder L F) (sv : Services L T TT F) (leptons : List L)
    (l1_idx : Nat) (l1 : L) (l2_idx : Nat) (st : ProduceState TT F) : ProduceState TT F :=
  if h : l2_idx < leptons.length then
    innerLoop b sv leptons l1_idx l1 (l2_idx + 1)
      (innerBody b sv l1_idx l1 l2_idx (leptons.get ⟨l2_idx, h⟩) st).2
  else st
termination_by leptons.length - l2_idx

/-- Line 93: `for (l1_idx = ...; l1_idx < leptons->size(); ++l1_idx)`, entered
at `l1_idx`. -/
def outerLoop [Zero F] [One F] [Neg F] [Add F] [HasSqrt F] [OfScientific F]
    (b : DiLeptonBuilder L F) (sv : Services L T TT F) (leptons : List L)
    (l1_idx : Nat) (st : ProduceState TT F) : ProduceState TT F :=
  if h : l1_idx < leptons.length then
    let l1 := leptons.get ⟨l1_idx, h⟩
    if !b.l1_selection_ l1 then outerLoop b sv leptons (l1_idx + 1) st
    else outerLoop b sv leptons (l1_idx + 1) (innerLoop b sv leptons l1_idx l1 (l1_idx + 1) st)
  else st
termination_by leptons.length - l1_idx

/-- Lines 91-160: the state when the double loop is left, started from the empty
output. -/
def produceLoop [Zero F] [One F] [Neg F] [Add F] [HasSqrt F] [OfScientific F]
    (b : DiLeptonBuilder L F) (sv : Services L T TT F) (leptons : List L) :
    ProduceState TT F :=
  outerLoop b sv leptons 0 ⟨[], [], []⟩

/-- Method `DiLeptonBuilder<Lepton>::produce`: reads the collection, runs the
double loop and puts the output into the event.  The second component is the
ghost trace of fitter constructions; the call log of the engine is the field
`calls` of `produceLoop`. -/
def produce [Zero F] [One F] [Neg F] [Add F] [HasSqrt F] [OfScientific F]
    (b : DiLeptonBuilder L F) (sv : Services L T TT F) (evt : Event L F) :
    Event L F × List (Nat × Nat) :=
  let leptons := evt.leptons
  let st := produceLoop b sv leptons
  ({ evt with products := evt.products ++ [st.ret_value] }, st.fits)

end Operations

/-! ## Reference description of the pipeline -/

section Reference

variable {L T TT F : Type}

/-- All index pairs `(i, j)` with `0 ≤ i < j < N`, `i` ascending, then `j` ascending. -/
def pairsSpec (N : Nat) : List (Nat × Nat) :=
  (List.range N).flatMap fun i => ((List.range N).filter fun j => i < j).map fun j => (i, j)

/-- Lexicographic order on index pairs. -/
def lexLt (p q : Nat × Nat) : Prop := p.1 < q.1 ∨ (p.1 = q.1 ∧ p.2 < q.2)

/-- The candidate of a pair once the fit attributes are attached. -/
def fittedCandidate [Zero F] [One F] [Neg F] [Add F] [HasSqrt F] [OfScientific F]
    (sv : Services L T TT F) (l1_idx : Nat) (l1 : L) (l2_idx : Nat) (l2 : L) :
    CompositeCandidate F :=
  vertexFit sv l1 l2 (provisional sv l1_idx l1 l2_idx l2)

/-- The pair reaches the fit: both lepton selections and the pre-fit selection hold. -/
def reachesFit [Zero F] [Add F] (b : DiLeptonBuilder L F) (sv : Services L T TT F)
    (l1_idx : Nat) (l1 : L) (l2_idx : Nat) (l2 : L) : Bool :=
  b.l1_selection_ l1 && b.l2_selection_ l2 &&
    b.pre_vtx_selection_ (provisional sv l1_idx l1 l2_idx l2)

/-- The pair is kept: it reaches the fit and the post-fit selection holds on the
candidate with its fit attributes. -/
def kept [Zero F] [One F] [Neg F] [Add F] [HasSqrt F] [OfScientific F]
    (b : DiLeptonBuilder L F) (sv : Services L T TT F)
    (l1_idx : Nat) (l1 : L) (l2_idx : Nat) (l2 : L) : Bool :=
  reachesFit b sv l1_idx l1 l2_idx l2 &&
    b.post_vtx_selection_ (fittedCandidate sv l1_idx l1 l2_idx l2)

/-- Candidate contributed by an index pair: the fitted candidate when the pair
is kept, nothing otherwise. -/
def keptCandidate [Zero F] [One F] [Neg F] [Add F] [HasSqrt F] [OfScientific F]
    (b : DiLeptonBuilder L F) (sv : Services L T TT F) (leptons : List L)
    (p : Nat × Nat) : Option (CompositeCandidate F) :=
  match leptons[p.1]?, leptons[p.2]? with
  | some l1, some l2 =>
    if kept b sv p.1 l1 p.2 l2 then some (fittedCandidate sv p.1 l1 p.2 l2) else none
  | _, _ => none

/-- Output described by enumeration: the kept candidates of all pairs, in pair order. -/
def outputSpec [Zero F] [One F] [Neg F] [Add F] [HasSqrt F] [OfScientific F]
    (b : DiLeptonBuilder L F) (sv : Services L T TT F) (leptons : List L) :
    List (CompositeCandidate F) :=
  (pairsSpec leptons.length).filterMap (keptCandidate b sv leptons)

/-- The pair reaches the fit (as a filter on index pairs of the collection). -/
def fitRequested [Zero F] [Add F] (b : DiLeptonBuilder L F) (sv : Services L T TT F)
    (leptons : List L) (p : Nat × Nat) : Bool :=
  match leptons[p.1]?, leptons[p.2]? with
  | some l1, some l2 => reachesFit b sv p.1 l1 p.2 l2
  | _, _ => false

/-- Fit invocations described by enumeration. -/
def fitsSpec [Zero F] [Add F] (b : DiLeptonBuilder L F) (sv : Services L T TT F)
    (leptons : List L) : List (Nat × Nat) :=
  (pairsSpec leptons.length).filter (fitRequested b sv leptons)

/-- The index pair stored on a candidate, when both labels are present. -/
def storedPair (c : CompositeCandidate F) : Option (Int × Int) :=
  match c.userInt "l1_idx", c.userInt "l2_idx" with
  | some i, some j => some (i, j)
  | _, _ => none

/-- Order of two candidates by their stored index pairs, lexicographically. -/
def storedLexLt (c d : CompositeCandidate F) : Prop :=
  ∃ p q : Int × Int, storedPair c = some p ∧ storedPair d = some q ∧
    (p.1 < q.1 ∨ (p.1 = q.1 ∧ p.2 < q.2))

/-- The eleven fit attributes of a candidate, each label with the value found
under it (`none` when the label is absent). -/
def fitAttributes (c : CompositeCandidate F) : List (String × Option F) :=
  catchLabels.map fun str => (str, c.userFloat str)

/-- The index pair contributes a candidate to the output. -/
def keptPair [Zero F] [One F] [Neg F] [Add F] [HasSqrt F] [OfScientific F]
    (b : DiLeptonBuilder L F) (sv : Services L T TT F) (leptons : List L)
    (p : Nat × Nat) : Bool :=
  (keptCandidate b sv leptons p).isSome

/-- An index pair as it is stored on a candidate. -/
def asStored (p : Nat × Nat) : Option (Int × Int) := some ((p.1 : Int), (p.2 : Int))

end Reference

/-! ## Contributions of single loop passes -/

section Passes

variable {L T TT F : Type}

/-- Candidates appended by the inner-loop pass at `l2_idx`. -/
def passOut [Zero F] [One F] [Neg F] [Add F] [HasSqrt F] [OfScientific F]
    (b : DiLeptonBuilder L F) (sv : Services L T TT F) (leptons : List L)
    (l1_idx : Nat) (l1 : L) (l2_idx : Nat) : List (CompositeCandidate F) :=
  match leptons[l2_idx]? with
  | some l2 =>
    if b.l2_selection_ l2 && b.pre_vtx_selection_ (provisional sv l1_idx l1 l2_idx l2) &&
        b.post_vtx_selection_ (fittedCandidate sv l1_idx l1 l2_idx l2)
      then [fittedCandidate sv l1_idx l1 l2_idx l2] else []
  | none => []

/-- Trace entries appended by the inner-loop pass at `l2_idx`. -/
def passFit [Zero F] [Add F] (b : DiLeptonBuilder L F) (sv : Services L T TT F)
    (leptons : List L) (l1_idx : Nat) (l1 : L) (l2_idx : Nat) : List (Nat × Nat) :=
  match leptons[l2_idx]? with
  | some l2 =>
    if b.l2_selection_ l2 && b.pre_vtx_selection_ (provisional sv l1_idx l1 l2_idx l2)
      then [(l1_idx, l2_idx)] else []
  | none => []

/-- The engine call made for two leptons: their transient tracks, twice
`LEP_MASS` and twice `LEP_SIGMA`. -/
def fitCall [OfScientific F] (sv : Services L T TT F) (l1 l2 : L) : FitCall TT F :=
  ⟨[sv.build (sv.lep.getTrack l1), sv.build (sv.lep.getTrack l2)],
    [LEP_MASS, LEP_MASS], [LEP_SIGMA, LEP_SIGMA]⟩

/-- Engine calls appended by the inner-loop pass at `l2_idx`. -/
def passCall [Zero F] [Add F] [OfScientific F] (b : DiLeptonBuilder L F)
    (sv : Services L T TT F) (leptons : List L) (l1_idx : Nat) (l1 : L) (l2_idx : Nat) :
    List (FitCall TT F) :=
  match leptons[l2_idx]? with
  | some l2 =>
    if b.l2_selection_ l2 && b.pre_vtx_selection_ (provisional sv l1_idx l1 l2_idx l2)
      then [fitCall sv l1 l2] else []
  | none => []

/-- Engine calls appended by the outer-loop pass at `l1_idx`. -/
def rowCall [Zero F] [Add F] [OfScientific F] (b : DiLeptonBuilder L F)
    (sv : Services L T TT F) (leptons : List L) (l1_idx : Nat) : List (FitCall TT F) :=
  match leptons[l1_idx]? with
  | some l1 =>
    if b.l1_selection_ l1 then
      (List.range' (l1_idx + 1) (leptons.length - (l1_idx + 1))).flatMap
        (passCall b sv leptons l1_idx l1)
    else []
  | none => []

/-- Candidates appended by the outer-loop pass at `l1_idx`. -/
def rowOut [Zero F] [One F] [Neg F] [Add F] [HasSqrt F] [OfScientific F]
    (b : DiLeptonBuilder L F) (sv : Services L T TT F) (leptons : List L)
    (l1_idx : Nat) : List (CompositeCandidate F) :=
  match leptons[l1_idx]? with
  | some l1 =>
    if b.l1_selection_ l1 then
      (List.range' (l1_idx + 1) (leptons.length - (l1_idx + 1))).flatMap
        (passOut b sv leptons l1_idx l1)
    else []
  | none => []

/-- Trace entries appended by the outer-loop pass at `l1_idx`. -/
def rowFit [Zero F] [Add F] (b : DiLeptonBuilder L F) (sv : Services L T TT F)
    (leptons : List L) (l1_idx : Nat) : List (Nat × Nat) :=
  match leptons[l1_idx]? with
  | some l1 =>
    if b.l1_selection_ l1 then
      (List.range' (l1_idx + 1) (leptons.length - (l1_idx + 1))).flatMap
        (passFit b sv leptons l1_idx l1)
    else []
  | none => []

end Passes

/-! ## Worked example

Leptons are identified by a tag; the track of a lepton and its transient track
are the tag again.  The scalars are rationals, with a square root that is exact
on squares. -/

section Example

/-- Square root on the rationals of the example, exact on squares of rationals. -/
instance : HasSqrt ℚ where
  sqrt q := (Nat.sqrt q.num.toNat : ℚ) / (Nat.sqrt q.den : ℚ)

/-- Lepton kind of the example. -/
def exLep : LeptonAccess ℕ ℕ ℚ :=
  { getTrack := fun n => n,
    getP4 := fun n => ⟨(n : ℚ), 0, 0, (n : ℚ)⟩,
    charge := fun _ => 1,
    deltaR := fun _ _ => 0 }

/-- A converged fit: chi2 1.2, ndof 1, prob 0.27, vertex (1, 2, 3). -/
def exConverged : KinVtxFitter ℚ :=
  { success := true, chi2 := 6 / 5, dof := 1, prob := 27 / 100,
    fitted_candidate := ⟨3, 4⟩,
    fitted_vtx := ⟨1, 2, 3⟩,
    fitted_vtx_uncertainty := ⟨4, 9, 16⟩ }

/-- A fit that completes and reports failure, with chi2 999, ndof -1, prob 0. -/
def exFailed : KinVtxFitter ℚ :=
  { success := false, chi2 := 999, dof := -1, prob := 0,
    fitted_candidate := ⟨0, 0⟩,
    fitted_vtx := ⟨0, 0, 0⟩,
    fitted_vtx_uncertainty := ⟨0, 0, 0⟩ }

/-- Fit engine of the example: converges on tracks 1 and 2, reports failure on
tracks 1 and 3, throws on anything else. -/
def exFit : List ℕ → List ℚ → List ℚ → Except String (KinVtxFitter ℚ)
  | [1, 2], _, _ => .ok exConverged
  | [1, 3], _, _ => .ok exFailed
  | _, _, _ => .error "fit failed"

/-- Fit engine that agrees with `exFit` wherever that one returns, and never throws. -/
def exFitCalm : List ℕ → List ℚ → List ℚ → Except String (KinVtxFitter ℚ)
  | [1, 2], _, _ => .ok exConverged
  | [1, 3], _, _ => .ok exFailed
  | _, _, _ => .ok exConverged

/-- Services of the example, with the throwing engine. -/
def exSv : Services ℕ ℕ ℕ ℚ := { lep := exLep, build := fun t => t, fit := exFit }

/-- Plugin whose four selections accept everything. -/
def exAll : DiLeptonBuilder ℕ ℚ :=
  { l1_selection_ := fun _ => true,
    l2_selection_ := fun _ => true,
    pre_vtx_selection_ := fun _ => true,
    post_vtx_selection_ := fun _ => true }

/-- Collection of the example: the leptons tagged 1, 2, 3. -/
def exLeptons : List ℕ := [1, 2, 3]

/-- Plugin whose post-fit selection rejects everything, the other three
selections accepting everything. -/
def exNoPost : DiLeptonBuilder ℕ ℚ :=
  { l1_selection_ := fun _ => true,
    l2_selection_ := fun _ => true,
    pre_vtx_selection_ := fun _ => true,
    post_vtx_selection_ := fun _ => false }

/-- Plugin whose lepton selections accept the lepton tagged 1 only as first
member and the leptons tagged 2 and 3 only as second member. -/
def exFirstOnly : DiLeptonBuilder ℕ ℚ :=
  { l1_selection_ := fun n => n == 1,
    l2_selection_ := fun n => n != 1,
    pre_vtx_selection_ := fun _ => true,
    post_vtx_selection_ := fun _ => true }

/-- Transverse momentum of the example leptons: the tag. -/
def exPt (n : ℕ) : ℚ := (n : ℚ)

/-- Scalars with a not-a-number value: a rational number, or `nan`. -/
inductive Fp where
  | nan : Fp
  | num (q : ℚ) : Fp
deriving DecidableEq

/-- Zero of `Fp`. -/
instance : Zero Fp := ⟨Fp.num 0⟩

/-- One of `Fp`. -/
instance : One Fp := ⟨Fp.num 1⟩

/-- Unary minus of `Fp`; `nan` stays `nan`. -/
instance : Neg Fp where
  neg
    | Fp.nan => Fp.nan
    | Fp.num q => Fp.num (-q)

/-- Sum in `Fp`; `nan` with anything is `nan`. -/
instance : Add Fp where
  add
    | Fp.num p, Fp.num q => Fp.num (p + q)
    | _, _ => Fp.nan

/-- Product in `Fp`; `nan` with anything is `nan`. -/
instance : Mul Fp where
  mul
    | Fp.num p, Fp.num q => Fp.num (p * q)
    | _, _ => Fp.nan

/-- Decimal literals of `Fp`. -/
instance : OfScientific Fp where
  ofScientific m s e := Fp.num (OfScientific.ofScientific m s e)

/-- Square root of `Fp`: `nan` on `nan` and on a negative number, as `sqrt` of
`<cmath>` returns; otherwise the square root of the rational example scalars. -/
instance : HasSqrt Fp where
  sqrt
    | Fp.nan => Fp.nan
    | Fp.num q => if q < 0 then Fp.nan else Fp.num (HasSqrt.sqrt q)

/-- Comparison `a <= b` of `Fp`: false as soon as one side is `nan`. -/
def Fp.le : Fp → Fp → Prop
  | Fp.num p, Fp.num q => p ≤ q
  | _, _ => False

/-- Order of `Fp`. -/
instance : LE Fp := ⟨Fp.le⟩

/-- A converged fit whose vertex covariance has a negative `cxx`. -/
def exNegative : KinVtxFitter Fp :=
  { success := true, chi2 := Fp.num (6 / 5), dof := Fp.num 1, prob := Fp.num (27 / 100),
    fitted_candidate := ⟨Fp.num 3, Fp.num 4⟩,
    fitted_vtx := ⟨Fp.num 1, Fp.num 2, Fp.num 3⟩,
    fitted_vtx_uncertainty := ⟨Fp.num (-1), Fp.num 9, Fp.num 16⟩ }

/-- A converged fit with non-negative covariance terms. -/
def exPositive : KinVtxFitter Fp :=
  { success := true, chi2 := Fp.num (6 / 5), dof := Fp.num 1, prob := Fp.num (27 / 100),
    fitted_candidate := ⟨Fp.num 3, Fp.num 4⟩,
    fitted_vtx := ⟨Fp.num 1, Fp.num 2, Fp.num 3⟩,
    fitted_vtx_uncertainty := ⟨Fp.num 4, Fp.num 9, Fp.num 16⟩ }

/-- Services over `Fp`: the fit converges, with a negative `cxx` on tracks 1
and 2 and with non-negative covariance terms elsewhere. -/
def exSvFp : Services ℕ ℕ ℕ Fp :=
  { lep :=
      { getTrack := fun n => n,
        getP4 := fun n => ⟨Fp.num n, Fp.num 0, Fp.num 0, Fp.num n⟩,
        charge := fun _ => 1,
        deltaR := fun _ _ => Fp.num 0 },
    build := fun t => t,
    fit := fun tts _ _ => if tts = [1, 2] then .ok exNegative else .ok exPositive }

/-- Numerator and denominator of `n / d * 2 ^ s`. -/
def scaled (n d : ℕ) (s : ℤ) : ℕ × ℕ :=
  if 0 ≤ s then (n * 2 ^ s.toNat, d) else (n, d * 2 ^ (-s).toNat)

/-- Power of two with an integer exponent, as a rational. -/
def pow2 (k : ℤ) : ℚ :=
  if 0 ≤ k then ((2 ^ k.toNat : ℕ) : ℚ) else 1 / ((2 ^ (-k).toNat : ℕ) : ℚ)

/-- Largest `e` not above `k` with `2 ^ e ≤ n`, and 0 when there is none. -/
def log2Aux (n : ℕ) : ℕ → ℕ
  | 0 => 0
  | k + 1 => if 2 ^ (k + 1) ≤ n then k + 1 else log2Aux n k

/-- Position of the leading bit of `n`, for `0 < n < 2 ^ 257`. -/
def ilog2 (n : ℕ) : ℕ := log2Aux n 256

/-- Rounding of `a / b` to a natural number, ties to even. -/
def roundEven (a b : ℕ) : ℕ :=
  let t := a / b
  let r := a % b
  if 2 * r < b then t else if b < 2 * r then t + 1 else t + t % 2

/-- Exponent `s` with `2 ^ 23 ≤ n / d * 2 ^ s < 2 ^ 24`, for positive `n`, `d`. -/
def scale24 (n d : ℕ) : ℤ :=
  let s : ℤ := 23 - ((ilog2 n : ℤ) - (ilog2 d : ℤ))
  if (scaled n d s).1 / (scaled n d s).2 < 2 ^ 23 then s + 1
  else if 2 ^ 24 ≤ (scaled n d s).1 / (scaled n d s).2 then s - 1 else s

/-- The number with a 24-bit significand nearest to `q`, ties to even: the
`float` nearest to `q`, the exponent range not being limited. -/
def round24 (q : ℚ) : ℚ :=
  if q = 0 then 0
  else
    let n := q.num.natAbs
    let d := q.den
    let s := scale24 n d
    let m := roundEven (scaled n d s).1 (scaled n d s).2
    (if q < 0 then -1 else 1) * (m : ℚ) * pow2 (-s)

/-- Integer square root of `n`, found bit by bit below `2 ^ k`. -/
def isqrtAux (n : ℕ) : ℕ → ℕ → ℕ
  | 0, r => r
  | k + 1, r =>
    if (r + 2 ^ k) * (r + 2 ^ k) ≤ n then isqrtAux n k (r + 2 ^ k) else isqrtAux n k r

/-- Square root of `q` rounded to a 24-bit significand, ties to even: with
`x = q * 4 ^ s` in `[2 ^ 46, 2 ^ 48)` and `t` the integer square root of `x`, the
result is `t` or `t + 1` according to the comparison of `x` with `(t + 1/2) ^ 2`. -/
def sqrt24 (q : ℚ) : ℚ :=
  if q ≤ 0 then 0
  else
    let n := q.num.natAbs
    let d := q.den
    let k : ℤ := (ilog2 n : ℤ) - (ilog2 d : ℤ)
    let s0 : ℤ := (47 - k) / 2
    let x0 := (scaled n d (2 * s0)).1 / (scaled n d (2 * s0)).2
    let s : ℤ := if x0 < 2 ^ 46 then s0 + 1 else if 2 ^ 48 ≤ x0 then s0 - 1 else s0
    let a := (scaled n d (2 * s)).1
    let b := (scaled n d (2 * s)).2
    let t := isqrtAux (a / b) 24 0
    let half := (4 * t * t + 4 * t + 1) * b
    let m := if 4 * a < half then t else if half < 4 * a then t + 1 else t + t % 2
    (m : ℚ) * pow2 (-s)

/-- Single-precision values of the example: a rational number with a 24-bit
significand, or `nan`. -/
inductive F32 where
  | nan : F32
  | num (q : ℚ) : F32
deriving DecidableEq

/-- Single-precision sum: the exact sum rounded to `float`. -/
instance : Add F32 where
  add
    | F32.num p, F32.num q => F32.num (round24 (p + q))
    | _, _ => F32.nan

/-- Single-precision product: the exact product rounded to `float`. -/
instance : Mul F32 where
  mul
    | F32.num p, F32.num q => F32.num (round24 (p * q))
    | _, _ => F32.nan

/-- Single-precision square root: correctly rounded, `nan` on a negative number. -/
instance : HasSqrt F32 where
  sqrt
    | F32.nan => F32.nan
    | F32.num q => if q < 0 then F32.nan else F32.num (sqrt24 q)

/-- Conversions between the scalars `Fp` and the single-precision values. -/
instance : HasFloat Fp F32 where
  narrow
    | Fp.nan => F32.nan
    | Fp.num q => F32.num (round24 q)
  widen
    | F32.nan => Fp.nan
    | F32.num q => Fp.num q

/-- A track with `px = 1 + 2^-30`, which is not a `float`. -/
def exTrackFine : Track Fp := ⟨Fp.num (1073741825 / 1073741824), Fp.num 0, Fp.num 0, 1⟩

/-- A track with momentum `(1, 1, 0)`. -/
def exTrackDiag : Track Fp := ⟨Fp.num 1, Fp.num 1, Fp.num 0, 1⟩

end Example

/-! ## Loop lemmas -/

section Lemmas

set_option linter.unusedSectionVars false

variable {L T TT F : Type} [Zero F] [One F] [Neg F] [Add F] [HasSqrt F] [OfScientific F]

theorem vertexFitLogged_eq (sv : Services L T TT F) (l1 l2 : L) (c : CompositeCandidate F)
    (st : ProduceState TT F) :
    vertexFitLogged sv l1 l2 c st =
      (vertexFit sv l1 l2 c, { st with calls := st.calls ++ [fitCall sv l1 l2] }) := by
  unfold vertexFit vertexFitLogged constructFitterLogged invokeFit fitCall
  simp only [bind, StateT.bind, pure, StateT.pure]
  generalize sv.fit [sv.build (sv.lep.getTrack l1), sv.build (sv.lep.getTrack l2)]
    [LEP_MASS, LEP_MASS] [LEP_SIGMA, LEP_SIGMA] = outcome
  cases outcome <;> rfl

theorem vertexFit_eq (sv : Services L T TT F) (l1 l2 : L) (c : CompositeCandidate F) :
    vertexFit sv l1 l2 c =
      match constructFitter sv l1 l2 with
      | .ok fitter => tryBody fitter c
      | .error _ => catchBody c := by
  unfold vertexFit vertexFitLogged constructFitter constructFitterLogged invokeFit
  simp only [bind, StateT.bind, pure, StateT.pure]
  generalize sv.fit [sv.build (sv.lep.getTrack l1), sv.build (sv.lep.getTrack l2)]
    [LEP_MASS, LEP_MASS] [LEP_SIGMA, LEP_SIGMA] = outcome
  cases outcome <;> rfl

theorem innerBody_eq (b : DiLeptonBuilder L F) (sv : Services L T TT F)
    (i : Nat) (l1 : L) (j : Nat) (l2 : L) (st : ProduceState TT F) :
    (innerBody b sv i l1 j l2 st).2 =
      ⟨st.ret_value ++
          (if b.l2_selection_ l2 && b.pre_vtx_selection_ (provisional sv i l1 j l2) &&
              b.post_vtx_selection_ (fittedCandidate sv i l1 j l2)
            then [fittedCandidate sv i l1 j l2] else []),
        st.fits ++
          (if b.l2_selection_ l2 && b.pre_vtx_selection_ (provisional sv i l1 j l2)
            then [(i, j)] else []),
        st.calls ++
          (if b.l2_selection_ l2 && b.pre_vtx_selection_ (provisional sv i l1 j l2)
            then [fitCall sv l1 l2] else [])⟩ := by
  unfold innerBody fittedCandidate
  cases h2 : b.l2_selection_ l2 <;> cases hp : b.pre_vtx_selection_ (provisional sv i l1 j l2) <;>
    cases hq : b.post_vtx_selection_ (vertexFit sv l1 l2 (provisional sv i l1 j l2)) <;>
    simp [h2, hp, hq, bind, StateT.bind, pure, StateT.pure, modify, modifyGet,
      MonadStateOf.modifyGet, StateT.modifyGet, vertexFitLogged_eq]

theorem innerLoop_eq (b : DiLeptonBuilder L F) (sv : Services L T TT F) (leptons : List L)
    (i : Nat) (l1 : L) :
    ∀ (n j : Nat) (st : ProduceState TT F), leptons.length - j = n →
      innerLoop b sv leptons i l1 j st =
        ⟨st.ret_value ++ (List.range' j n).flatMap (passOut b sv leptons i l1),
         st.fits ++ (List.range' j n).flatMap (passFit b sv leptons i l1),
         st.calls ++ (List.range' j n).flatMap (passCall b sv leptons i l1)⟩ := by
  intro n
  induction n with
  | zero =>
    intro j st h
    rw [innerLoop]
    have hj : ¬ j < leptons.length := by omega
    simp [hj]
  | succ n ih =>
    intro j st h
    rw [innerLoop]
    have hj : j < leptons.length := by omega
    rw [dif_pos hj, ih (j + 1) _ (by omega), innerBody_eq]
    have hget : leptons[j]? = some (leptons.get ⟨j, hj⟩) := by
      simp [List.getElem?_eq_getElem hj]
    simp [List.range'_succ, passOut, passFit, passCall, hget, List.append_assoc]

theorem outerLoop_eq (b : DiLeptonBuilder L F) (sv : Services L T TT F) (leptons : List L) :
    ∀ (n i : Nat) (st : ProduceState TT F), leptons.length - i = n →
      outerLoop b sv leptons i st =
        ⟨st.ret_value ++ (List.range' i n).flatMap (rowOut b sv leptons),
         st.fits ++ (List.range' i n).flatMap (rowFit b sv leptons),
         st.calls ++ (List.range' i n).flatMap (rowCall b sv leptons)⟩ := by
  intro n
  induction n with
  | zero =>
    intro i st h
    rw [outerLoop]
    have hi : ¬ i < leptons.length := by omega
    simp [hi]
  | succ n ih =>
    intro i st h
    rw [outerLoop]
    have hi : i < leptons.length := by omega
    have hget : leptons[i]? = some leptons[i] := List.getElem?_eq_getElem hi
    rw [dif_pos hi]
    simp only [List.get_eq_getElem]
    cases h1 : b.l1_selection_ leptons[i]
    · simp [h1, ih (i + 1) _ (by omega), List.range'_succ, rowOut, rowFit, rowCall, hget]
    · simp [h1, ih (i + 1) _ (by omega), List.range'_succ, rowOut, rowFit, rowCall, hget,
        innerLoop_eq b sv leptons i _ _ (i + 1) st rfl, List.append_assoc]

theorem produceLoop_eq (b : DiLeptonBuilder L F) (sv : Services L T TT F) (leptons : List L) :
    produceLoop b sv leptons =
      ⟨(List.range leptons.length).flatMap (rowOut b sv leptons),
       (List.range leptons.length).flatMap (rowFit b sv leptons),
       (List.range leptons.length).flatMap (rowCall b sv leptons)⟩ := by
  unfold produceLoop
  rw [outerLoop_eq b sv leptons leptons.length 0 _ (by omega)]
  simp [List.range_eq_range']

theorem filter_range_lt (N i : Nat) :
    (List.range N).filter (fun j => i < j) = List.range' (i + 1) (N - (i + 1)) := by
  induction N with
  | zero => simp
  | succ N ih =>
    rw [List.range_succ, List.filter_append, ih]
    by_cases h : i < N
    · have e : N + 1 - (i + 1) = (N - (i + 1)) + 1 := by omega
      rw [e, List.range'_concat]
      have h2 : N = i + 1 + (N - (i + 1)) := by omega
      simp [h]
      exact h2
    · have e : N + 1 - (i + 1) = 0 := by omega
      have h3 : N - (i + 1) = 0 := by omega
      simp [h, e, h3]

theorem pairsSpec_eq (N : Nat) :
    pairsSpec N =
      (List.range N).flatMap fun i => (List.range' (i + 1) (N - (i + 1))).map fun j => (i, j) := by
  unfold pairsSpec
  simp only [filter_range_lt]

theorem mem_pairsSpec (N : Nat) (p : Nat × Nat) :
    p ∈ pairsSpec N ↔ p.1 < p.2 ∧ p.2 < N := by
  rw [pairsSpec_eq]
  simp only [List.mem_flatMap, List.mem_range, List.mem_map, List.mem_range'_1]
  constructor
  · rintro ⟨i, hi, j, ⟨h1, h2⟩, rfl⟩
    simp only
    omega
  · rintro ⟨h1, h2⟩
    exact ⟨p.1, by omega, p.2, ⟨by omega, by omega⟩, rfl⟩

theorem pairsSpec_sorted (N : Nat) : (pairsSpec N).Pairwise lexLt := by
  rw [pairsSpec_eq, List.pairwise_flatMap]
  constructor
  · intro i _
    rw [List.pairwise_map]
    refine (List.pairwise_lt_range' (i + 1) (N - (i + 1))).imp ?_
    intro a c hac
    exact Or.inr ⟨rfl, hac⟩
  · refine (List.pairwise_lt_range N).imp ?_
    intro a c hac x hx y hy
    simp only [List.mem_map] at hx hy
    obtain ⟨_, _, rfl⟩ := hx
    obtain ⟨_, _, rfl⟩ := hy
    exact Or.inl hac

theorem filterMap_eq_flatMap_toList {α β : Type} (f : α → Option β) (l : List α) :
    l.filterMap f = l.flatMap fun a => (f a).toList := by
  induction l with
  | nil => rfl
  | cons a l ih =>
    rw [List.flatMap_cons, ← ih]
    cases h : f a <;> simp [List.filterMap_cons, h, Option.toList]

theorem rowOut_eq (b : DiLeptonBuilder L F) (sv : Services L T TT F) (leptons : List L)
    (i : Nat) :
    rowOut b sv leptons i =
      ((List.range' (i + 1) (leptons.length - (i + 1))).map fun j => (i, j)).filterMap
        (keptCandidate b sv leptons) := by
  rw [List.filterMap_map, filterMap_eq_flatMap_toList]
  unfold rowOut
  cases hi : leptons[i]? with
  | none => simp [keptCandidate, hi]
  | some l1 =>
    cases h1 : b.l1_selection_ l1
    · simp [keptCandidate, hi, kept, reachesFit, h1]
      intro j _ _
      cases leptons[j]? <;> simp [h1]
    · simp only [h1, if_true]
      apply List.flatMap_congr
      intro j _
      simp only [passOut, keptCandidate, Function.comp, hi, kept, reachesFit]
      cases leptons[j]? with
      | none => rfl
      | some l2 =>
        cases h2 : b.l2_selection_ l2 <;>
          cases hp : b.pre_vtx_selection_ (provisional sv i l1 j l2) <;>
          cases hq : b.post_vtx_selection_ (fittedCandidate sv i l1 j l2) <;>
          simp [h1, h2, hp, hq]

theorem rowFit_eq (b : DiLeptonBuilder L F) (sv : Services L T TT F) (leptons : List L)
    (i : Nat) :
    rowFit b sv leptons i =
      ((List.range' (i + 1) (leptons.length - (i + 1))).map fun j => (i, j)).filter
        (fitRequested b sv leptons) := by
  rw [← List.filterMap_eq_filter, List.filterMap_map, filterMap_eq_flatMap_toList]
  unfold rowFit
  cases hi : leptons[i]? with
  | none => simp [fitRequested, hi, Option.guard]
  | some l1 =>
    cases h1 : b.l1_selection_ l1
    · simp [fitRequested, hi, reachesFit, h1, Option.guard]
      intro j _ _
      cases leptons[j]? <;> simp [h1]
    · simp only [h1, if_true]
      apply List.flatMap_congr
      intro j _
      simp only [passFit, fitRequested, Function.comp, hi, reachesFit, Option.guard]
      cases leptons[j]? with
      | none => simp
      | some l2 =>
        cases h2 : b.l2_selection_ l2 <;>
          cases hp : b.pre_vtx_selection_ (provisional sv i l1 j l2) <;>
          simp [h1, h2, hp]

theorem produceLoop_ret_value (b : DiLeptonBuilder L F) (sv : Services L T TT F)
    (leptons : List L) : (produceLoop b sv leptons).ret_value = outputSpec b sv leptons := by
  rw [produceLoop_eq, outputSpec, pairsSpec_eq, List.filterMap_flatMap]
  exact List.flatMap_congr fun i _ => rowOut_eq b sv leptons i

theorem produceLoop_fits (b : DiLeptonBuilder L F) (sv : Services L T TT F)
    (leptons : List L) : (produceLoop b sv leptons).fits = fitsSpec b sv leptons := by
  rw [produceLoop_eq, fitsSpec, pairsSpec_eq, List.filter_flatMap]
  exact List.flatMap_congr fun i _ => rowFit_eq b sv leptons i

end Lemmas

/-! ## Attributes written by the fit stage -/

section Attributes

set_option linter.unusedSectionVars false

variable {L T TT F : Type} [Zero F] [One F] [Neg F] [Add F] [HasSqrt F] [OfScientific F]

theorem vertexFit_ok (sv : Services L T TT F) (l1 l2 : L) (c : CompositeCandidate F)
    (fitter : KinVtxFitter F) (h : constructFitter sv l1 l2 = .ok fitter) :
    vertexFit sv l1 l2 c = tryBody fitter c := by
  simp [vertexFit_eq, h]

theorem vertexFit_error (sv : Services L T TT F) (l1 l2 : L) (c : CompositeCandidate F)
    (msg : String) (h : constructFitter sv l1 l2 = .error msg) :
    vertexFit sv l1 l2 c = catchBody c := by
  simp [vertexFit_eq, h]

theorem provisional_eq (sv : Services L T TT F) (i : Nat) (l1 : L) (j : Nat) (l2 : L) :
    provisional sv i l1 j l2 =
      { p4 := sv.lep.getP4 l1 + sv.lep.getP4 l2,
        charge := sv.lep.charge l1 + sv.lep.charge l2,
        vertex := Point.null,
        userFloats := [("lep_deltaR", sv.lep.deltaR l1 l2)],
        userInts := [("l1_idx", (i : Int)), ("l2_idx", (j : Int))] } := by
  rfl

theorem tryBody_eq (fitter : KinVtxFitter F) (c : CompositeCandidate F) :
    tryBody fitter c =
      { p4 := c.p4, charge := c.charge,
        vertex := if fitter.success then fitter.fitted_vtx else Point.null,
        userFloats := c.userFloats ++
          [("sv_chi2", fitter.chi2), ("sv_ndof", fitter.dof), ("sv_prob", fitter.prob),
           ("fitted_mass", if fitter.success then fitter.fitted_candidate.mass else -1),
           ("fitted_massErr",
              if fitter.success then HasSqrt.sqrt fitter.fitted_candidate.matrix66 else -1),
           ("vtx_x", if fitter.success then fitter.fitted_vtx.x else 0),
           ("vtx_y", if fitter.success then fitter.fitted_vtx.y else 0),
           ("vtx_z", if fitter.success then fitter.fitted_vtx.z else 0),
           ("vtx_ex",
              if fitter.success then HasSqrt.sqrt fitter.fitted_vtx_uncertainty.cxx else -1),
           ("vtx_ey",
              if fitter.success then HasSqrt.sqrt fitter.fitted_vtx_uncertainty.cyy else -1),
           ("vtx_ez",
              if fitter.success then HasSqrt.sqrt fitter.fitted_vtx_uncertainty.czz else -1)],
        userInts := c.userInts } := by
  cases hs : fitter.success <;>
    simp [tryBody, hs, CompositeCandidate.addUserFloat, CompositeCandidate.setVertex,
      CompositeCandidate.vx, CompositeCandidate.vy, CompositeCandidate.vz, Point.null]

theorem catchBody_eq (c : CompositeCandidate F) :
    catchBody c =
      { p4 := c.p4, charge := c.charge, vertex := c.vertex,
        userFloats := c.userFloats ++
          [("sv_chi2", -1), ("sv_ndof", -1), ("sv_prob", -1), ("fitted_mass", -1),
           ("fitted_massErr", -1), ("vtx_x", -1), ("vtx_y", -1), ("vtx_z", -1),
           ("vtx_ex", -1), ("vtx_ey", -1), ("vtx_ez", -1)],
        userInts := c.userInts } := by
  simp [catchBody, catchLabels, CompositeCandidate.addUserFloat]

theorem fittedCandidate_userInts (sv : Services L T TT F) (i : Nat) (l1 : L) (j : Nat) (l2 : L) :
    (fittedCandidate sv i l1 j l2).userInts = [("l1_idx", (i : Int)), ("l2_idx", (j : Int))] := by
  unfold fittedCandidate
  rw [vertexFit_eq]
  split
  · rw [tryBody_eq, provisional_eq]
  · rw [catchBody_eq, provisional_eq]

theorem fittedCandidate_storedPair (sv : Services L T TT F) (i : Nat) (l1 : L) (j : Nat)
    (l2 : L) : storedPair (fittedCandidate sv i l1 j l2) = some ((i : Int), (j : Int)) := by
  simp [storedPair, CompositeCandidate.userInt, fittedCandidate_userInts]

theorem fittedCandidate_ok (sv : Services L T TT F) (i : Nat) (l1 : L) (j : Nat) (l2 : L)
    (fitter : KinVtxFitter F) (h : constructFitter sv l1 l2 = .ok fitter) :
    fittedCandidate sv i l1 j l2 = tryBody fitter (provisional sv i l1 j l2) :=
  vertexFit_ok sv l1 l2 _ fitter h

theorem fittedCandidate_error (sv : Services L T TT F) (i : Nat) (l1 : L) (j : Nat) (l2 : L)
    (msg : String) (h : constructFitter sv l1 l2 = .error msg) :
    fittedCandidate sv i l1 j l2 = catchBody (provisional sv i l1 j l2) :=
  vertexFit_error sv l1 l2 _ msg h

theorem fitAttributes_success (sv : Services L T TT F) (i : Nat) (l1 : L) (j : Nat) (l2 : L)
    (fitter : KinVtxFitter F) (hfit : constructFitter sv l1 l2 = .ok fitter)
    (hs : fitter.success = true) :
    (fittedCandidate sv i l1 j l2).vertex = fitter.fitted_vtx ∧
    fitAttributes (fittedCandidate sv i l1 j l2) =
      [("sv_chi2", some fitter.chi2), ("sv_ndof", some fitter.dof),
       ("sv_prob", some fitter.prob),
       ("fitted_mass", some fitter.fitted_candidate.mass),
       ("fitted_massErr", some (HasSqrt.sqrt fitter.fitted_candidate.matrix66)),
       ("vtx_x", some fitter.fitted_vtx.x), ("vtx_y", some fitter.fitted_vtx.y),
       ("vtx_z", some fitter.fitted_vtx.z),
       ("vtx_ex", some (HasSqrt.sqrt fitter.fitted_vtx_uncertainty.cxx)),
       ("vtx_ey", some (HasSqrt.sqrt fitter.fitted_vtx_uncertainty.cyy)),
       ("vtx_ez", some (HasSqrt.sqrt fitter.fitted_vtx_uncertainty.czz))] := by
  rw [fittedCandidate_ok sv i l1 j l2 fitter hfit, tryBody_eq, provisional_eq]
  simp [hs, fitAttributes, catchLabels, CompositeCandidate.userFloat, List.find?]

theorem fitAttributes_failure (sv : Services L T TT F) (i : Nat) (l1 : L) (j : Nat) (l2 : L)
    (fitter : KinVtxFitter F) (hfit : constructFitter sv l1 l2 = .ok fitter)
    (hs : fitter.success = false) :
    (fittedCandidate sv i l1 j l2).vertex = Point.null ∧
    fitAttributes (fittedCandidate sv i l1 j l2) =
      [("sv_chi2", some fitter.chi2), ("sv_ndof", some fitter.dof),
       ("sv_prob", some fitter.prob),
       ("fitted_mass", some (-1)), ("fitted_massErr", some (-1)),
       ("vtx_x", some 0), ("vtx_y", some 0), ("vtx_z", some 0),
       ("vtx_ex", some (-1)), ("vtx_ey", some (-1)), ("vtx_ez", some (-1))] := by
  rw [fittedCandidate_ok sv i l1 j l2 fitter hfit, tryBody_eq, provisional_eq]
  simp [hs, fitAttributes, catchLabels, CompositeCandidate.userFloat, List.find?, Point.null]

theorem fitAttributes_thrown (sv : Services L T TT F) (i : Nat) (l1 : L) (j : Nat) (l2 : L)
    (msg : String) (hfit : constructFitter sv l1 l2 = .error msg) :
    (fittedCandidate sv i l1 j l2).vertex = Point.null ∧
    fitAttributes (fittedCandidate sv i l1 j l2) =
      [("sv_chi2", some (-1)), ("sv_ndof", some (-1)), ("sv_prob", some (-1)),
       ("fitted_mass", some (-1)), ("fitted_massErr", some (-1)),
       ("vtx_x", some (-1)), ("vtx_y", some (-1)), ("vtx_z", some (-1)),
       ("vtx_ex", some (-1)), ("vtx_ey", some (-1)), ("vtx_ez", some (-1))] := by
  rw [fittedCandidate_error sv i l1 j l2 msg hfit, catchBody_eq, provisional_eq]
  simp [fitAttributes, catchLabels, CompositeCandidate.userFloat, List.find?]


end Attributes

/-! ## Claims -/

section Claims

set_option linter.unusedSectionVars false

variable {L T TT F : Type} [Zero F] [One F] [Neg F] [Add F] [HasSqrt F] [OfScientific F]

theorem keptCandidate_some (b : DiLeptonBuilder L F) (sv : Services L T TT F)
    (leptons : List L) (p : Nat × Nat) (c : CompositeCandidate F) :
    keptCandidate b sv leptons p = some c ↔
      ∃ l1 l2, leptons[p.1]? = some l1 ∧ leptons[p.2]? = some l2 ∧
        kept b sv p.1 l1 p.2 l2 = true ∧ c = fittedCandidate sv p.1 l1 p.2 l2 := by
  unfold keptCandidate
  cases h1 : leptons[p.1]? with
  | none => simp
  | some l1 =>
    cases h2 : leptons[p.2]? with
    | none => simp
    | some l2 =>
      cases hk : kept b sv p.1 l1 p.2 l2
      · simp [hk]
      · simp only [hk, if_true, Option.some.injEq]
        constructor
        · rintro rfl
          exact ⟨l1, l2, rfl, rfl, hk, rfl⟩
        · rintro ⟨_, _, rfl, rfl, _, rfl⟩
          rfl

theorem mem_output (b : DiLeptonBuilder L F) (sv : Services L T TT F)
    (leptons : List L) (c : CompositeCandidate F) :
    c ∈ (produceLoop b sv leptons).ret_value ↔
      ∃ i j l1 l2, i < j ∧ leptons[i]? = some l1 ∧ leptons[j]? = some l2 ∧
        kept b sv i l1 j l2 = true ∧ c = fittedCandidate sv i l1 j l2 := by
  rw [produceLoop_ret_value, outputSpec, List.mem_filterMap]
  constructor
  · rintro ⟨p, hp, hc⟩
    rw [mem_pairsSpec] at hp
    obtain ⟨l1, l2, h1, h2, hk, rfl⟩ := (keptCandidate_some b sv leptons p c).1 hc
    exact ⟨p.1, p.2, l1, l2, hp.1, h1, h2, hk, rfl⟩
  · rintro ⟨i, j, l1, l2, hij, h1, h2, hk, rfl⟩
    refine ⟨(i, j), ?_, ?_⟩
    · rw [mem_pairsSpec]
      refine ⟨hij, ?_⟩
      by_contra hN
      have hnone : leptons[j]? = none := List.getElem?_eq_none (by simpa using hN)
      rw [hnone] at h2
      cases h2
    · exact (keptCandidate_some b sv leptons (i, j) _).2 ⟨l1, l2, h1, h2, hk, rfl⟩

theorem mem_output_pair (b : DiLeptonBuilder L F) (sv : Services L T TT F) (leptons : List L)
    (i j : Nat) (l1 l2 : L) (hij : i < j) (h1 : leptons[i]? = some l1)
    (h2 : leptons[j]? = some l2) :
    fittedCandidate sv i l1 j l2 ∈ (produceLoop b sv leptons).ret_value ↔
      kept b sv i l1 j l2 = true := by
  rw [mem_output]
  constructor
  · rintro ⟨i', j', l1', l2', _, h1', h2', hk, heq⟩
    have hp := congrArg storedPair heq
    rw [fittedCandidate_storedPair, fittedCandidate_storedPair] at hp
    simp only [Option.some.injEq, Prod.mk.injEq, Nat.cast_inj] at hp
    obtain ⟨rfl, rfl⟩ := hp
    rw [h1] at h1'
    rw [h2] at h2'
    cases h1'
    cases h2'
    exact hk
  · intro hk
    exact ⟨i, j, l1, l2, hij, h1, h2, hk, rfl⟩

theorem count_eq_one_of_nodup {α : Type} [BEq α] [LawfulBEq α] (a : α) (l : List α)
    (hnd : l.Nodup) (h : a ∈ l) : l.count a = 1 := by
  induction l with
  | nil => cases h
  | cons x l ih =>
    rw [List.nodup_cons] at hnd
    rw [List.count_cons]
    rcases List.mem_cons.1 h with rfl | hl
    · have h0 : l.count a = 0 := List.count_eq_zero.2 hnd.1
      simp [h0]
    · have hx : (x == a) = false := by
        rw [beq_eq_false_iff_ne]
        rintro rfl
        exact hnd.1 hl
      simp [ih hnd.2 hl, hx]

theorem lexLt_ne (p q : Nat × Nat) (h : lexLt p q) : p ≠ q := by
  rintro rfl
  rcases h with h | ⟨_, h⟩ <;> omega

theorem pairsSpec_nodup (N : Nat) : (pairsSpec N).Nodup :=
  (pairsSpec_sorted N).imp fun {p q} h => lexLt_ne p q h

theorem sum_map_range_reflect (N : Nat) :
    ((List.range N).map fun i => N - (i + 1)).sum = N * (N - 1) / 2 := by
  have h : ∀ (f : ℕ → ℕ) (n : ℕ), ((List.range n).map f).sum = ∑ i in Finset.range n, f i := by
    intro f n
    induction n with
    | zero => simp
    | succ n ih => rw [List.sum_range_succ, Finset.sum_range_succ, ih]
  rw [h, ← Finset.sum_range_id]
  have hr := Finset.sum_range_reflect (fun i => i) N
  simp only [Nat.sub_sub] at hr
  rw [← hr]
  apply Finset.sum_congr rfl
  intro i _
  omega

theorem length_pairsSpec (N : Nat) : (pairsSpec N).length = N * (N - 1) / 2 := by
  rw [pairsSpec_eq, List.length_flatMap, ← sum_map_range_reflect]
  congr 1
  apply List.map_congr_left
  intro i _
  simp

theorem asStored_injective : Function.Injective asStored := by
  intro p q h
  simp only [asStored, Option.some.injEq, Prod.mk.injEq, Nat.cast_inj] at h
  exact Prod.ext h.1 h.2

theorem map_storedPair_filterMap (b : DiLeptonBuilder L F) (sv : Services L T TT F)
    (leptons : List L) (l : List (Nat × Nat)) :
    (l.filterMap (keptCandidate b sv leptons)).map storedPair =
      (l.filter (keptPair b sv leptons)).map asStored := by
  induction l with
  | nil => rfl
  | cons p l ih =>
    cases hk : keptCandidate b sv leptons p with
    | none => simp [List.filterMap_cons, hk, keptPair, ih]
    | some c =>
      obtain ⟨l1, l2, _, _, _, rfl⟩ := (keptCandidate_some b sv leptons p c).1 hk
      simp [List.filterMap_cons, hk, keptPair, ih, fittedCandidate_storedPair, asStored]

theorem output_storedPairs (b : DiLeptonBuilder L F) (sv : Services L T TT F)
    (leptons : List L) :
    (produceLoop b sv leptons).ret_value.map storedPair =
      ((pairsSpec leptons.length).filter (keptPair b sv leptons)).map asStored := by
  rw [produceLoop_ret_value, outputSpec, map_storedPair_filterMap]

theorem keptPair_of_accepting (b : DiLeptonBuilder L F) (sv : Services L T TT F)
    (leptons : List L)
    (hl1 : ∀ l, b.l1_selection_ l = true) (hl2 : ∀ l, b.l2_selection_ l = true)
    (hpre : ∀ c, b.pre_vtx_selection_ c = true) (hpost : ∀ c, b.post_vtx_selection_ c = true)
    (p : Nat × Nat) (hp : p ∈ pairsSpec leptons.length) :
    keptPair b sv leptons p = true := by
  rw [mem_pairsSpec] at hp
  have h1 : p.1 < leptons.length := by omega
  simp [keptPair, keptCandidate, List.getElem?_eq_getElem h1, List.getElem?_eq_getElem hp.2,
    kept, reachesFit, hl1, hl2, hpre, hpost]

/-- C1: the collection put by `produce` is the enumeration of all index pairs
`(i, j)`, `0 ≤ i < j < N`, in lexicographic order, restricted to the pairs on
which the two lepton selections, the pre-fit selection (on the provisional
candidate, which carries the summed momentum, the summed charge, `lep_deltaR`
and the two indices only) and the post-fit selection (on the candidate with its
fit attributes) all hold; the stored index pairs of the output are strictly
increasing lexicographically. -/
theorem produce_output_is_enumeration (b : DiLeptonBuilder L F) (sv : Services L T TT F)
    (evt : Event L F) :
    (produce b sv evt).1.products =
      evt.products ++ [(pairsSpec evt.leptons.length).filterMap (keptCandidate b sv evt.leptons)] ∧
    ((pairsSpec evt.leptons.length).filterMap (keptCandidate b sv evt.leptons)).Pairwise
      storedLexLt ∧
    ∀ i l1 j l2, provisional sv i l1 j l2 =
      { p4 := sv.lep.getP4 l1 + sv.lep.getP4 l2,
        charge := sv.lep.charge l1 + sv.lep.charge l2,
        vertex := Point.null,
        userFloats := [("lep_deltaR", sv.lep.deltaR l1 l2)],
        userInts := [("l1_idx", (i : Int)), ("l2_idx", (j : Int))] } := by
  refine ⟨?_, ?_, fun _ _ _ _ => rfl⟩
  · simp [produce, produceLoop_ret_value, outputSpec]
  · refine List.Pairwise.filterMap _ ?_ (pairsSpec_sorted evt.leptons.length)
    intro p q hpq c hc d hd
    obtain ⟨_, _, _, _, _, rfl⟩ := (keptCandidate_some b sv evt.leptons p c).1 hc
    obtain ⟨_, _, _, _, _, rfl⟩ := (keptCandidate_some b sv evt.leptons q d).1 hd
    refine ⟨_, _, fittedCandidate_storedPair .., fittedCandidate_storedPair .., ?_⟩
    rcases hpq with h | ⟨h1, h2⟩
    · exact Or.inl (by simpa using h)
    · exact Or.inr ⟨by simpa using h1, by simpa using h2⟩

/-- C2 (as the code has it): for a pair whose fit reports failure or throws, the
vertex position is the null point and `fitted_mass`, `fitted_massErr`, `vtx_ex`,
`vtx_ey`, `vtx_ez` are -1.  When the fit reported failure, `vtx_x`, `vtx_y`,
`vtx_z` are 0 and `sv_chi2`, `sv_ndof`, `sv_prob` are the values returned by the
fit object; when the fit threw, these six attributes are -1 as well. -/
theorem failed_or_thrown_attributes (sv : Services L T TT F) (i : Nat) (l1 : L) (j : Nat)
    (l2 : L)
    (hfail : ∀ fitter, constructFitter sv l1 l2 = .ok fitter → fitter.success = false) :
    (fittedCandidate sv i l1 j l2).vertex = Point.null ∧
    (∀ fitter, constructFitter sv l1 l2 = .ok fitter →
      fitAttributes (fittedCandidate sv i l1 j l2) =
        [("sv_chi2", some fitter.chi2), ("sv_ndof", some fitter.dof),
         ("sv_prob", some fitter.prob),
         ("fitted_mass", some (-1)), ("fitted_massErr", some (-1)),
         ("vtx_x", some 0), ("vtx_y", some 0), ("vtx_z", some 0),
         ("vtx_ex", some (-1)), ("vtx_ey", some (-1)), ("vtx_ez", some (-1))]) ∧
    (∀ msg, constructFitter sv l1 l2 = .error msg →
      fitAttributes (fittedCandidate sv i l1 j l2) =
        [("sv_chi2", some (-1)), ("sv_ndof", some (-1)), ("sv_prob", some (-1)),
         ("fitted_mass", some (-1)), ("fitted_massErr", some (-1)),
         ("vtx_x", some (-1)), ("vtx_y", some (-1)), ("vtx_z", some (-1)),
         ("vtx_ex", some (-1)), ("vtx_ey", some (-1)), ("vtx_ez", some (-1))]) := by
  refine ⟨?_, ?_, ?_⟩
  · cases hfit : constructFitter sv l1 l2 with
    | ok fitter => exact (fitAttributes_failure sv i l1 j l2 fitter hfit (hfail fitter hfit)).1
    | error msg => exact (fitAttributes_thrown sv i l1 j l2 msg hfit).1
  · intro fitter hfit
    exact (fitAttributes_failure sv i l1 j l2 fitter hfit (hfail fitter hfit)).2
  · intro msg hfit
    exact (fitAttributes_thrown sv i l1 j l2 msg hfit).2

/-- Witness of C2 (as the code has it): the pair of leptons 2 and 3 of the
example, whose fit throws. -/
theorem failed_or_thrown_attributes_witness :
    (∀ fitter, constructFitter exSv 2 3 = .ok fitter → fitter.success = false) ∧
    (fittedCandidate exSv 1 2 2 3).vertex = Point.null ∧
    (∀ fitter, constructFitter exSv 2 3 = .ok fitter →
      fitAttributes (fittedCandidate exSv 1 2 2 3) =
        [("sv_chi2", some fitter.chi2), ("sv_ndof", some fitter.dof),
         ("sv_prob", some fitter.prob),
         ("fitted_mass", some (-1)), ("fitted_massErr", some (-1)),
         ("vtx_x", some 0), ("vtx_y", some 0), ("vtx_z", some 0),
         ("vtx_ex", some (-1)), ("vtx_ey", some (-1)), ("vtx_ez", some (-1))]) ∧
    (∀ msg, constructFitter exSv 2 3 = .error msg →
      fitAttributes (fittedCandidate exSv 1 2 2 3) =
        [("sv_chi2", some (-1)), ("sv_ndof", some (-1)), ("sv_prob", some (-1)),
         ("fitted_mass", some (-1)), ("fitted_massErr", some (-1)),
         ("vtx_x", some (-1)), ("vtx_y", some (-1)), ("vtx_z", some (-1)),
         ("vtx_ex", some (-1)), ("vtx_ey", some (-1)), ("vtx_ez", some (-1))]) :=
  have hfail : ∀ fitter, constructFitter exSv 2 3 = .ok fitter → fitter.success = false :=
    fun _ h => by cases h
  ⟨hfail, failed_or_thrown_attributes exSv 1 2 2 3 hfail⟩

/-- C2 fails as stated: the pair of leptons 1 and 3 has a fit that reports
failure with chi2 999, and its candidate carries `sv_chi2` 999, not -1; the pair
of leptons 2 and 3 has a fit that throws, and its candidate carries `vtx_x` -1,
not the null point coordinate 0. -/
theorem failed_or_thrown_not_uniform :
    (constructFitter exSv 1 3 = .ok exFailed ∧ exFailed.success = false ∧
      (fittedCandidate exSv 0 1 2 3).userFloat "sv_chi2" = some 999 ∧
      (fittedCandidate exSv 0 1 2 3).userFloat "sv_chi2" ≠ some (-1)) ∧
    (constructFitter exSv 2 3 = .error "fit failed" ∧
      (fittedCandidate exSv 1 2 2 3).userFloat "vtx_x" = some (-1) ∧
      (fittedCandidate exSv 1 2 2 3).userFloat "vtx_x" ≠ some 0) := by
  refine ⟨⟨rfl, rfl, ?_, ?_⟩, rfl, ?_, ?_⟩ <;> decide

/-- C3 (as the code has it): every emitted candidate is the candidate of an
index pair of the collection; when the fit of that pair returned (success or
reported failure), `vtx_x`, `vtx_y`, `vtx_z` equal `vx()`, `vy()`, `vz()` of the
vertex position set on the candidate, which is the null point on a reported
failure; when the fit threw, `vtx_x`, `vtx_y`, `vtx_z` are -1 and the vertex
position is the default null point. -/
theorem emitted_vertex_attributes (b : DiLeptonBuilder L F) (sv : Services L T TT F)
    (leptons : List L) (c : CompositeCandidate F)
    (hc : c ∈ (produceLoop b sv leptons).ret_value) :
    ∃ i j l1 l2, leptons[i]? = some l1 ∧ leptons[j]? = some l2 ∧
      c = fittedCandidate sv i l1 j l2 ∧
      (∀ fitter, constructFitter sv l1 l2 = .ok fitter →
        c.userFloat "vtx_x" = some c.vx ∧ c.userFloat "vtx_y" = some c.vy ∧
          c.userFloat "vtx_z" = some c.vz ∧
          (fitter.success = false → c.vertex = Point.null)) ∧
      (∀ msg, constructFitter sv l1 l2 = .error msg →
        c.userFloat "vtx_x" = some (-1) ∧ c.userFloat "vtx_y" = some (-1) ∧
          c.userFloat "vtx_z" = some (-1) ∧ c.vertex = Point.null) := by
  obtain ⟨i, j, l1, l2, _, h1, h2, _, rfl⟩ := (mem_output b sv leptons c).1 hc
  refine ⟨i, j, l1, l2, h1, h2, rfl, ?_, ?_⟩
  · intro fitter hfit
    rw [fittedCandidate_ok sv i l1 j l2 fitter hfit, tryBody_eq, provisional_eq]
    cases hs : fitter.success <;>
      simp [CompositeCandidate.userFloat, List.find?, CompositeCandidate.vx,
        CompositeCandidate.vy, CompositeCandidate.vz, Point.null]
  · intro msg hfit
    rw [fittedCandidate_error sv i l1 j l2 msg hfit, catchBody_eq, provisional_eq]
    simp [CompositeCandidate.userFloat, List.find?]

/-- Witness of C3 (as the code has it): the candidate of leptons 1 and 2 in the
run of the example. -/
theorem emitted_vertex_attributes_witness :
    fittedCandidate exSv 0 1 1 2 ∈ (produceLoop exAll exSv exLeptons).ret_value ∧
    ∃ i j l1 l2, exLeptons[i]? = some l1 ∧ exLeptons[j]? = some l2 ∧
      fittedCandidate exSv 0 1 1 2 = fittedCandidate exSv i l1 j l2 ∧
      (∀ fitter, constructFitter exSv l1 l2 = .ok fitter →
        (fittedCandidate exSv 0 1 1 2).userFloat "vtx_x" =
            some (fittedCandidate exSv 0 1 1 2).vx ∧
          (fittedCandidate exSv 0 1 1 2).userFloat "vtx_y" =
            some (fittedCandidate exSv 0 1 1 2).vy ∧
          (fittedCandidate exSv 0 1 1 2).userFloat "vtx_z" =
            some (fittedCandidate exSv 0 1 1 2).vz ∧
          (fitter.success = false → (fittedCandidate exSv 0 1 1 2).vertex = Point.null)) ∧
      (∀ msg, constructFitter exSv l1 l2 = .error msg →
        (fittedCandidate exSv 0 1 1 2).userFloat "vtx_x" = some (-1) ∧
          (fittedCandidate exSv 0 1 1 2).userFloat "vtx_y" = some (-1) ∧
          (fittedCandidate exSv 0 1 1 2).userFloat "vtx_z" = some (-1) ∧
          (fittedCandidate exSv 0 1 1 2).vertex = Point.null) :=
  have hmem : fittedCandidate exSv 0 1 1 2 ∈ (produceLoop exAll exSv exLeptons).ret_value :=
    (mem_output_pair exAll exSv exLeptons 0 1 1 2 (by decide) rfl rfl).2 rfl
  ⟨hmem, emitted_vertex_attributes exAll exSv exLeptons _ hmem⟩

/-- C3 fails as stated: in the run of the example the candidate of leptons 2
and 3, whose fit throws, is emitted with `vtx_x` -1 while `vx()` of its vertex
position is 0. -/
theorem emitted_thrown_vertex_mismatch :
    fittedCandidate exSv 1 2 2 3 ∈ (produceLoop exAll exSv exLeptons).ret_value ∧
    constructFitter exSv 2 3 = .error "fit failed" ∧
    (fittedCandidate exSv 1 2 2 3).userFloat "vtx_x" = some (-1) ∧
    (fittedCandidate exSv 1 2 2 3).vx = 0 ∧
    (fittedCandidate exSv 1 2 2 3).userFloat "vtx_x" ≠
      some (fittedCandidate exSv 1 2 2 3).vx := by
  refine ⟨?_, rfl, ?_, ?_, ?_⟩
  · exact (mem_output_pair exAll exSv exLeptons 1 2 2 3 (by decide) rfl rfl).2 rfl
  · decide
  · decide
  · decide

/-- C4: for a pair that passes the two lepton selections and the pre-fit
selection and whose fit throws, every one of the eleven fit attributes is -1,
the vertex position is the default null point, and the candidate is in the
output exactly when the post-fit selection accepts it. -/
theorem thrown_fit_candidate (b : DiLeptonBuilder L F) (sv : Services L T TT F)
    (leptons : List L) (i j : Nat) (l1 l2 : L) (msg : String)
    (hij : i < j) (h1 : leptons[i]? = some l1) (h2 : leptons[j]? = some l2)
    (hl1 : b.l1_selection_ l1 = true) (hl2 : b.l2_selection_ l2 = true)
    (hpre : b.pre_vtx_selection_ (provisional sv i l1 j l2) = true)
    (hthrow : constructFitter sv l1 l2 = .error msg) :
    fitAttributes (fittedCandidate sv i l1 j l2) =
      [("sv_chi2", some (-1)), ("sv_ndof", some (-1)), ("sv_prob", some (-1)),
       ("fitted_mass", some (-1)), ("fitted_massErr", some (-1)),
       ("vtx_x", some (-1)), ("vtx_y", some (-1)), ("vtx_z", some (-1)),
       ("vtx_ex", some (-1)), ("vtx_ey", some (-1)), ("vtx_ez", some (-1))] ∧
    (fittedCandidate sv i l1 j l2).vertex = Point.null ∧
    (fittedCandidate sv i l1 j l2 ∈ (produceLoop b sv leptons).ret_value ↔
      b.post_vtx_selection_ (fittedCandidate sv i l1 j l2) = true) := by
  refine ⟨(fitAttributes_thrown sv i l1 j l2 msg hthrow).2,
    (fitAttributes_thrown sv i l1 j l2 msg hthrow).1, ?_⟩
  rw [mem_output_pair b sv leptons i j l1 l2 hij h1 h2]
  simp [kept, reachesFit, hl1, hl2, hpre]

/-- Witness of C4: the pair of leptons 2 and 3 of the example, whose fit throws. -/
theorem thrown_fit_candidate_witness :
    (1 < 2 ∧ exLeptons[1]? = some 2 ∧ exLeptons[2]? = some 3 ∧
      exAll.l1_selection_ 2 = true ∧ exAll.l2_selection_ 3 = true ∧
      exAll.pre_vtx_selection_ (provisional exSv 1 2 2 3) = true ∧
      constructFitter exSv 2 3 = .error "fit failed") ∧
    fitAttributes (fittedCandidate exSv 1 2 2 3) =
      [("sv_chi2", some (-1)), ("sv_ndof", some (-1)), ("sv_prob", some (-1)),
       ("fitted_mass", some (-1)), ("fitted_massErr", some (-1)),
       ("vtx_x", some (-1)), ("vtx_y", some (-1)), ("vtx_z", some (-1)),
       ("vtx_ex", some (-1)), ("vtx_ey", some (-1)), ("vtx_ez", some (-1))] ∧
    (fittedCandidate exSv 1 2 2 3).vertex = Point.null ∧
    (fittedCandidate exSv 1 2 2 3 ∈ (produceLoop exAll exSv exLeptons).ret_value ↔
      exAll.post_vtx_selection_ (fittedCandidate exSv 1 2 2 3) = true) :=
  ⟨⟨by decide, rfl, rfl, rfl, rfl, rfl, rfl⟩,
    thrown_fit_candidate exAll exSv exLeptons 1 2 2 3 "fit failed" (by decide) rfl rfl rfl rfl
      rfl rfl⟩

/-- C5: when the fit completes and reports failure, the vertex position is the
null point, `vtx_x`, `vtx_y`, `vtx_z` are 0, `sv_chi2`, `sv_ndof`, `sv_prob` are
the values returned by the fit object, and `fitted_mass`, `fitted_massErr`,
`vtx_ex`, `vtx_ey`, `vtx_ez` are -1. -/
theorem reported_failure_attributes (sv : Services L T TT F) (i : Nat) (l1 : L) (j : Nat)
    (l2 : L) (fitter : KinVtxFitter F) (hfit : constructFitter sv l1 l2 = .ok fitter)
    (hs : fitter.success = false) :
    (fittedCandidate sv i l1 j l2).vertex = Point.null ∧
    fitAttributes (fittedCandidate sv i l1 j l2) =
      [("sv_chi2", some fitter.chi2), ("sv_ndof", some fitter.dof),
       ("sv_prob", some fitter.prob),
       ("fitted_mass", some (-1)), ("fitted_massErr", some (-1)),
       ("vtx_x", some 0), ("vtx_y", some 0), ("vtx_z", some 0),
       ("vtx_ex", some (-1)), ("vtx_ey", some (-1)), ("vtx_ez", some (-1))] :=
  fitAttributes_failure sv i l1 j l2 fitter hfit hs

/-- Witness of C5: the pair of leptons 1 and 3 of the example. -/
theorem reported_failure_attributes_witness :
    (constructFitter exSv 1 3 = .ok exFailed ∧ exFailed.success = false) ∧
    (fittedCandidate exSv 0 1 2 3).vertex = Point.null ∧
    fitAttributes (fittedCandidate exSv 0 1 2 3) =
      [("sv_chi2", some 999), ("sv_ndof", some (-1)), ("sv_prob", some 0),
       ("fitted_mass", some (-1)), ("fitted_massErr", some (-1)),
       ("vtx_x", some 0), ("vtx_y", some 0), ("vtx_z", some 0),
       ("vtx_ex", some (-1)), ("vtx_ey", some (-1)), ("vtx_ez", some (-1))] :=
  ⟨⟨rfl, rfl⟩, reported_failure_attributes exSv 0 1 2 3 exFailed rfl rfl⟩

/-- C6: when the fit succeeds, the vertex position is the fitted vertex point,
`vtx_x`, `vtx_y`, `vtx_z` are its coordinates, `sv_chi2`, `sv_ndof`, `sv_prob`
are the chi-square, degrees of freedom and probability of the fit,
`fitted_mass` is the mass of the fitted candidate, `fitted_massErr` is the
square root of entry (6,6) of its kinematic-parameter covariance, and `vtx_ex`,
`vtx_ey`, `vtx_ez` are the square roots of `cxx`, `cyy`, `czz`. -/
theorem successful_fit_attributes (sv : Services L T TT F) (i : Nat) (l1 : L) (j : Nat)
    (l2 : L) (fitter : KinVtxFitter F) (hfit : constructFitter sv l1 l2 = .ok fitter)
    (hs : fitter.success = true) :
    (fittedCandidate sv i l1 j l2).vertex =
      ⟨fitter.fitted_vtx.x, fitter.fitted_vtx.y, fitter.fitted_vtx.z⟩ ∧
    fitAttributes (fittedCandidate sv i l1 j l2) =
      [("sv_chi2", some fitter.chi2), ("sv_ndof", some fitter.dof),
       ("sv_prob", some fitter.prob),
       ("fitted_mass", some fitter.fitted_candidate.mass),
       ("fitted_massErr", some (HasSqrt.sqrt fitter.fitted_candidate.matrix66)),
       ("vtx_x", some fitter.fitted_vtx.x), ("vtx_y", some fitter.fitted_vtx.y),
       ("vtx_z", some fitter.fitted_vtx.z),
       ("vtx_ex", some (HasSqrt.sqrt fitter.fitted_vtx_uncertainty.cxx)),
       ("vtx_ey", some (HasSqrt.sqrt fitter.fitted_vtx_uncertainty.cyy)),
       ("vtx_ez", some (HasSqrt.sqrt fitter.fitted_vtx_uncertainty.czz))] :=
  fitAttributes_success sv i l1 j l2 fitter hfit hs

/-- Witness of C6: the pair of leptons 1 and 2 of the example, with vertex
(1, 2, 3), covariance entry 4 and vertex variances 4, 9, 16. -/
theorem successful_fit_attributes_witness :
    (constructFitter exSv 1 2 = .ok exConverged ∧ exConverged.success = true) ∧
    (fittedCandidate exSv 0 1 1 2).vertex = ⟨1, 2, 3⟩ ∧
    fitAttributes (fittedCandidate exSv 0 1 1 2) =
      [("sv_chi2", some (6 / 5)), ("sv_ndof", some 1), ("sv_prob", some (27 / 100)),
       ("fitted_mass", some 3), ("fitted_massErr", some (HasSqrt.sqrt 4)),
       ("vtx_x", some 1), ("vtx_y", some 2), ("vtx_z", some 3),
       ("vtx_ex", some (HasSqrt.sqrt 4)), ("vtx_ey", some (HasSqrt.sqrt 9)),
       ("vtx_ez", some (HasSqrt.sqrt 16))] :=
  ⟨⟨rfl, rfl⟩, successful_fit_attributes exSv 0 1 1 2 exConverged rfl rfl⟩

/-- C7: a throwing fit is contained.  Let a second engine agree with the first
wherever the first returns a fitter (so the second may be one that never
throws).  Then `produce` with the first engine completes and puts one output
collection, and for every pair whose own fit did not throw, the candidate is
the same under both engines and is emitted under one exactly when it is
emitted under the other. -/
theorem thrown_fit_is_contained (b : DiLeptonBuilder L F) (sv : Services L T TT F)
    (fit2 : List TT → List F → List F → Except String (KinVtxFitter F)) (evt : Event L F)
    (hagree : ∀ tts ms ss fitter, sv.fit tts ms ss = .ok fitter → fit2 tts ms ss = .ok fitter) :
    (produce b sv evt).1.products = evt.products ++ [(produceLoop b sv evt.leptons).ret_value] ∧
    ∀ i j l1 l2 fitter, i < j → evt.leptons[i]? = some l1 → evt.leptons[j]? = some l2 →
      constructFitter sv l1 l2 = .ok fitter →
      fittedCandidate sv i l1 j l2 = fittedCandidate { sv with fit := fit2 } i l1 j l2 ∧
      (fittedCandidate sv i l1 j l2 ∈ (produceLoop b sv evt.leptons).ret_value ↔
        fittedCandidate { sv with fit := fit2 } i l1 j l2 ∈
          (produceLoop b { sv with fit := fit2 } evt.leptons).ret_value) := by
  refine ⟨rfl, ?_⟩
  intro i j l1 l2 fitter hij h1 h2 hfit
  have hfit2 : constructFitter { sv with fit := fit2 } l1 l2 = .ok fitter :=
    hagree _ _ _ fitter hfit
  have hc : fittedCandidate sv i l1 j l2 = fittedCandidate { sv with fit := fit2 } i l1 j l2 := by
    rw [fittedCandidate_ok sv i l1 j l2 fitter hfit,
      fittedCandidate_ok { sv with fit := fit2 } i l1 j l2 fitter hfit2]
    rfl
  refine ⟨hc, ?_⟩
  rw [mem_output_pair b sv evt.leptons i j l1 l2 hij h1 h2,
    mem_output_pair b { sv with fit := fit2 } evt.leptons i j l1 l2 hij h1 h2]
  simp only [kept, ← hc]
  rfl

/-- Witness of C7: the example collection with the engine that throws on
leptons 2 and 3, against the engine that never throws. -/
theorem thrown_fit_is_contained_witness :
    (∀ tts ms ss fitter, exSv.fit tts ms ss = .ok fitter → exFitCalm tts ms ss = .ok fitter) ∧
    (produce exAll exSv ⟨exLeptons, []⟩).1.products =
      [] ++ [(produceLoop exAll exSv exLeptons).ret_value] ∧
    ∀ i j l1 l2 fitter, i < j → exLeptons[i]? = some l1 → exLeptons[j]? = some l2 →
      constructFitter exSv l1 l2 = .ok fitter →
      fittedCandidate exSv i l1 j l2 = fittedCandidate { exSv with fit := exFitCalm } i l1 j l2 ∧
      (fittedCandidate exSv i l1 j l2 ∈ (produceLoop exAll exSv exLeptons).ret_value ↔
        fittedCandidate { exSv with fit := exFitCalm } i l1 j l2 ∈
          (produceLoop exAll { exSv with fit := exFitCalm } exLeptons).ret_value) :=
  have hagree : ∀ tts ms ss fitter,
      exSv.fit tts ms ss = .ok fitter → exFitCalm tts ms ss = .ok fitter := by
    intro tts ms ss fitter h
    simp only [exSv] at h
    unfold exFit at h
    unfold exFitCalm
    split at h <;> simp_all
  ⟨hagree, thrown_fit_is_contained exAll exSv exFitCalm ⟨exLeptons, []⟩ hagree⟩

/-- C9: when the four selections accept everything, the output has exactly
`N * (N - 1) / 2` candidates, every candidate stores an index pair `(i, j)` with
`i < j < N`, and every pair `(i, j)` with `i < j < N` is the stored pair of
exactly one candidate of the output. -/
theorem all_pairs_when_accepting (b : DiLeptonBuilder L F) (sv : Services L T TT F)
    (leptons : List L)
    (hl1 : ∀ l, b.l1_selection_ l = true) (hl2 : ∀ l, b.l2_selection_ l = true)
    (hpre : ∀ c, b.pre_vtx_selection_ c = true) (hpost : ∀ c, b.post_vtx_selection_ c = true) :
    (produceLoop b sv leptons).ret_value.length = leptons.length * (leptons.length - 1) / 2 ∧
    (∀ c ∈ (produceLoop b sv leptons).ret_value, ∃ i j : Nat,
      storedPair c = some ((i : Int), (j : Int)) ∧ i < j ∧ j < leptons.length) ∧
    (∀ i j : Nat, i < j → j < leptons.length →
      ((produceLoop b sv leptons).ret_value.map storedPair).count
        (some ((i : Int), (j : Int))) = 1) := by
  have hall : (pairsSpec leptons.length).filter (keptPair b sv leptons) =
      pairsSpec leptons.length :=
    List.filter_eq_self.2 (keptPair_of_accepting b sv leptons hl1 hl2 hpre hpost)
  have hmap := output_storedPairs b sv leptons
  rw [hall] at hmap
  refine ⟨?_, ?_, ?_⟩
  · have hlen := congrArg List.length hmap
    rw [List.length_map, List.length_map, length_pairsSpec] at hlen
    exact hlen
  · intro c hc
    obtain ⟨i, j, l1, l2, hij, _, h2, _, rfl⟩ := (mem_output b sv leptons c).1 hc
    refine ⟨i, j, fittedCandidate_storedPair sv i l1 j l2, hij, ?_⟩
    by_contra hN
    rw [List.getElem?_eq_none (by omega)] at h2
    cases h2
  · intro i j hij hj
    rw [hmap]
    exact count_eq_one_of_nodup _ _ ((pairsSpec_nodup _).map asStored_injective)
      (List.mem_map.2 ⟨(i, j), (mem_pairsSpec _ _).2 ⟨hij, hj⟩, rfl⟩)

/-- Witness of C9: the example collection of three leptons yields three candidates. -/
theorem all_pairs_when_accepting_witness :
    ((∀ l, exAll.l1_selection_ l = true) ∧ (∀ l, exAll.l2_selection_ l = true) ∧
      (∀ c, exAll.pre_vtx_selection_ c = true) ∧ (∀ c, exAll.post_vtx_selection_ c = true)) ∧
    (produceLoop exAll exSv exLeptons).ret_value.length = 3 * (3 - 1) / 2 ∧
    (∀ c ∈ (produceLoop exAll exSv exLeptons).ret_value, ∃ i j : Nat,
      storedPair c = some ((i : Int), (j : Int)) ∧ i < j ∧ j < 3) ∧
    (∀ i j : Nat, i < j → j < 3 →
      ((produceLoop exAll exSv exLeptons).ret_value.map storedPair).count
        (some ((i : Int), (j : Int))) = 1) :=
  ⟨⟨fun _ => rfl, fun _ => rfl, fun _ => rfl, fun _ => rfl⟩,
    all_pairs_when_accepting exAll exSv exLeptons (fun _ => rfl) (fun _ => rfl) (fun _ => rfl)
      (fun _ => rfl)⟩

/-- C10: every candidate of the output stores an index pair `(l1_idx, l2_idx)`
with `l1_idx < l2_idx < N`, so both are positions of the input collection, and
`produce` leaves the input collection of the event as it was. -/
theorem output_indices_valid (b : DiLeptonBuilder L F) (sv : Services L T TT F)
    (evt : Event L F) :
    (produce b sv evt).1.leptons = evt.leptons ∧
    ∃ out, (produce b sv evt).1.products = evt.products ++ [out] ∧
      ∀ c ∈ out, ∃ i j : Nat,
        c.userInt "l1_idx" = some (i : Int) ∧ c.userInt "l2_idx" = some (j : Int) ∧
        i < j ∧ j < evt.leptons.length ∧
        (∃ l1, evt.leptons[i]? = some l1) ∧ (∃ l2, evt.leptons[j]? = some l2) := by
  refine ⟨rfl, (produceLoop b sv evt.leptons).ret_value, rfl, ?_⟩
  intro c hc
  obtain ⟨i, j, l1, l2, hij, h1, h2, _, rfl⟩ := (mem_output b sv evt.leptons c).1 hc
  have hj : j < evt.leptons.length := by
    by_contra hN
    rw [List.getElem?_eq_none (by omega)] at h2
    cases h2
  refine ⟨i, j, ?_, ?_, hij, hj, ⟨l1, h1⟩, ⟨l2, h2⟩⟩ <;>
    simp [CompositeCandidate.userInt, fittedCandidate_userInts]

theorem fittedCandidate_labels (sv : Services L T TT F) (i : Nat) (l1 : L) (j : Nat) (l2 : L) :
    (fittedCandidate sv i l1 j l2).userFloats.map Prod.fst = "lep_deltaR" :: catchLabels := by
  unfold fittedCandidate
  rw [vertexFit_eq]
  split
  · rw [tryBody_eq, provisional_eq]
    simp [catchLabels]
  · rw [catchBody_eq, provisional_eq]
    simp [catchLabels]

theorem fittedCandidate_frame (sv : Services L T TT F) (i : Nat) (l1 : L) (j : Nat) (l2 : L) :
    (fittedCandidate sv i l1 j l2).p4 = (provisional sv i l1 j l2).p4 ∧
    (fittedCandidate sv i l1 j l2).charge = (provisional sv i l1 j l2).charge ∧
    (fittedCandidate sv i l1 j l2).userFloat "lep_deltaR" =
      (provisional sv i l1 j l2).userFloat "lep_deltaR" ∧
    (fittedCandidate sv i l1 j l2).userInts = (provisional sv i l1 j l2).userInts := by
  unfold fittedCandidate
  rw [vertexFit_eq]
  split
  · rw [tryBody_eq, provisional_eq]
    simp [CompositeCandidate.userFloat, List.find?]
  · rw [catchBody_eq, provisional_eq]
    simp [CompositeCandidate.userFloat, List.find?]

/-- C11: every emitted candidate, whatever the outcome of its fit, carries the
same labels: the float labels `lep_deltaR`, `sv_chi2`, `sv_ndof`, `sv_prob`,
`fitted_mass`, `fitted_massErr`, `vtx_x`, `vtx_y`, `vtx_z`, `vtx_ex`, `vtx_ey`,
`vtx_ez`, each exactly once and each with a value, and the integer labels
`l1_idx` and `l2_idx`. -/
theorem emitted_attribute_set (b : DiLeptonBuilder L F) (sv : Services L T TT F)
    (leptons : List L) (c : CompositeCandidate F)
    (hc : c ∈ (produceLoop b sv leptons).ret_value) :
    c.userFloats.map Prod.fst =
      ["lep_deltaR", "sv_chi2", "sv_ndof", "sv_prob", "fitted_mass", "fitted_massErr",
       "vtx_x", "vtx_y", "vtx_z", "vtx_ex", "vtx_ey", "vtx_ez"] ∧
    (c.userFloats.map Prod.fst).Nodup ∧
    (∀ label ∈ ["lep_deltaR", "sv_chi2", "sv_ndof", "sv_prob", "fitted_mass", "fitted_massErr",
        "vtx_x", "vtx_y", "vtx_z", "vtx_ex", "vtx_ey", "vtx_ez"],
      ∃ v, c.userFloat label = some v) ∧
    c.userInts.map Prod.fst = ["l1_idx", "l2_idx"] ∧
    (∃ i j, c.userInt "l1_idx" = some i ∧ c.userInt "l2_idx" = some j) := by
  obtain ⟨i, j, l1, l2, _, _, _, _, rfl⟩ := (mem_output b sv leptons c).1 hc
  have hl := fittedCandidate_labels sv i l1 j l2
  have hkeys : ∀ (kvs : List (String × F)) (label : String), label ∈ kvs.map Prod.fst →
      ∃ v, (kvs.find? (fun kv => kv.1 == label)).map (fun kv => kv.2) = some v := by
    intro kvs label hmem
    induction kvs with
    | nil => cases hmem
    | cons kv kvs ih =>
      by_cases hk : kv.1 = label
      · exact ⟨kv.2, by simp [List.find?, hk]⟩
      · have hm : label ∈ kvs.map Prod.fst := by
          rcases List.mem_cons.1 hmem with h | h
          · exact absurd h.symm hk
          · exact h
        obtain ⟨v, hv⟩ := ih hm
        have hb : (kv.1 == label) = false := by simpa using hk
        exact ⟨v, by rw [List.find?, hb]; exact hv⟩
  refine ⟨hl, ?_, ?_, ?_, ?_⟩
  · rw [hl]
    decide
  · intro label hlabel
    exact hkeys _ label (by rw [hl]; exact hlabel)
  · rw [fittedCandidate_userInts]
    rfl
  · exact ⟨i, j, by simp [CompositeCandidate.userInt, fittedCandidate_userInts],
      by simp [CompositeCandidate.userInt, fittedCandidate_userInts]⟩

/-- Witness of C11: the candidate of leptons 2 and 3 of the example, whose fit
throws. -/
theorem emitted_attribute_set_witness :
    fittedCandidate exSv 1 2 2 3 ∈ (produceLoop exAll exSv exLeptons).ret_value ∧
    (fittedCandidate exSv 1 2 2 3).userFloats.map Prod.fst =
      ["lep_deltaR", "sv_chi2", "sv_ndof", "sv_prob", "fitted_mass", "fitted_massErr",
       "vtx_x", "vtx_y", "vtx_z", "vtx_ex", "vtx_ey", "vtx_ez"] ∧
    ((fittedCandidate exSv 1 2 2 3).userFloats.map Prod.fst).Nodup ∧
    (∀ label ∈ ["lep_deltaR", "sv_chi2", "sv_ndof", "sv_prob", "fitted_mass", "fitted_massErr",
        "vtx_x", "vtx_y", "vtx_z", "vtx_ex", "vtx_ey", "vtx_ez"],
      ∃ v, (fittedCandidate exSv 1 2 2 3).userFloat label = some v) ∧
    (fittedCandidate exSv 1 2 2 3).userInts.map Prod.fst = ["l1_idx", "l2_idx"] ∧
    (∃ i j, (fittedCandidate exSv 1 2 2 3).userInt "l1_idx" = some i ∧
      (fittedCandidate exSv 1 2 2 3).userInt "l2_idx" = some j) :=
  have hmem : fittedCandidate exSv 1 2 2 3 ∈ (produceLoop exAll exSv exLeptons).ret_value :=
    (mem_output_pair exAll exSv exLeptons 1 2 2 3 (by decide) rfl rfl).2 rfl
  ⟨hmem, emitted_attribute_set exAll exSv exLeptons _ hmem⟩

theorem produceLoop_two (b : DiLeptonBuilder L F) (sv : Services L T TT F) (a1 a2 : L) :
    (produceLoop b sv [a1, a2]).ret_value =
      if kept b sv 0 a1 1 a2 then [fittedCandidate sv 0 a1 1 a2] else [] := by
  rw [produceLoop_ret_value, outputSpec]
  have hp : pairsSpec 2 = [(0, 1)] := by decide
  rw [List.length_cons, List.length_singleton, hp]
  cases hk : kept b sv 0 a1 1 a2 <;> simp [keptCandidate, hk]

/-- C12 (as the code has it): for a collection of exactly two particles in which
particle 0 passes the lep1 selection, particle 1 passes the lep2 selection, the
pre-fit selection accepts, the fit succeeds with chi-square `c`, degrees of
freedom `d`, probability `p` and vertex point `v`, and the post-fit selection
accepts the resulting candidate, the output has exactly one candidate, and it
has `sv_chi2 = c`, `sv_ndof = d`, `sv_prob = p` and vertex position `v`. -/
theorem two_leptons_one_candidate (b : DiLeptonBuilder L F) (sv : Services L T TT F)
    (evt : Event L F) (a1 a2 : L) (fitter : KinVtxFitter F)
    (hevt : evt.leptons = [a1, a2])
    (hl1 : b.l1_selection_ a1 = true) (hl2 : b.l2_selection_ a2 = true)
    (hpre : b.pre_vtx_selection_ (provisional sv 0 a1 1 a2) = true)
    (hfit : constructFitter sv a1 a2 = .ok fitter) (hs : fitter.success = true)
    (hpost : b.post_vtx_selection_ (fittedCandidate sv 0 a1 1 a2) = true) :
    ∃ cand, (produce b sv evt).1.products = evt.products ++ [[cand]] ∧
      cand.userFloat "sv_chi2" = some fitter.chi2 ∧
      cand.userFloat "sv_ndof" = some fitter.dof ∧
      cand.userFloat "sv_prob" = some fitter.prob ∧
      cand.vertex = fitter.fitted_vtx := by
  refine ⟨fittedCandidate sv 0 a1 1 a2, ?_, ?_⟩
  · have hk : kept b sv 0 a1 1 a2 = true := by simp [kept, reachesFit, hl1, hl2, hpre, hpost]
    simp [produce, hevt, produceLoop_two, hk]
  · rw [fittedCandidate_ok sv 0 a1 1 a2 fitter hfit, tryBody_eq, provisional_eq]
    simp [hs, CompositeCandidate.userFloat, List.find?]

/-- Witness of C12 (as the code has it): leptons 1 and 2 of the example, fit with
chi2 1.2, ndof 1, prob 0.27 and vertex (1, 2, 3). -/
theorem two_leptons_one_candidate_witness :
    (exAll.l1_selection_ 1 = true ∧ exAll.l2_selection_ 2 = true ∧
      exAll.pre_vtx_selection_ (provisional exSv 0 1 1 2) = true ∧
      constructFitter exSv 1 2 = .ok exConverged ∧ exConverged.success = true ∧
      exAll.post_vtx_selection_ (fittedCandidate exSv 0 1 1 2) = true) ∧
    ∃ cand, (produce exAll exSv ⟨[1, 2], []⟩).1.products = [] ++ [[cand]] ∧
      cand.userFloat "sv_chi2" = some (6 / 5) ∧
      cand.userFloat "sv_ndof" = some 1 ∧
      cand.userFloat "sv_prob" = some (27 / 100) ∧
      cand.vertex = ⟨1, 2, 3⟩ :=
  ⟨⟨rfl, rfl, rfl, rfl, rfl, rfl⟩,
    two_leptons_one_candidate exAll exSv ⟨[1, 2], []⟩ 1 2 exConverged rfl rfl rfl rfl rfl rfl
      rfl⟩

/-- C12 fails as stated: with leptons 1 and 2 passing the lepton selections, the
pre-fit selection accepting and the fit succeeding, a post-fit selection that
rejects the candidate leaves the output empty. -/
theorem two_leptons_post_rejected :
    exNoPost.l1_selection_ 1 = true ∧ exNoPost.l2_selection_ 2 = true ∧
    exNoPost.pre_vtx_selection_ (provisional exSv 0 1 1 2) = true ∧
    constructFitter exSv 1 2 = .ok exConverged ∧ exConverged.success = true ∧
    (produce exNoPost exSv ⟨[1, 2], []⟩).1.products = [[]] ∧
    (produceLoop exNoPost exSv [1, 2]).ret_value.length ≠ 1 := by
  have hk : kept exNoPost exSv 0 1 1 2 = false := rfl
  refine ⟨rfl, rfl, rfl, rfl, rfl, ?_, ?_⟩
  · simp [produce, produceLoop_two, hk]
  · simp [produceLoop_two, hk]

theorem mem_fits (b : DiLeptonBuilder L F) (sv : Services L T TT F) (leptons : List L)
    (p : Nat × Nat) :
    p ∈ (produceLoop b sv leptons).fits ↔
      p.1 < p.2 ∧ ∃ l1 l2, leptons[p.1]? = some l1 ∧ leptons[p.2]? = some l2 ∧
        reachesFit b sv p.1 l1 p.2 l2 = true := by
  rw [produceLoop_fits, fitsSpec, List.mem_filter, mem_pairsSpec]
  unfold fitRequested
  constructor
  · rintro ⟨⟨h1, _⟩, hr⟩
    cases hl1 : leptons[p.1]? with
    | none => simp [hl1] at hr
    | some l1 =>
      cases hl2 : leptons[p.2]? with
      | none => simp [hl1, hl2] at hr
      | some l2 =>
        simp only [hl1, hl2] at hr
        exact ⟨h1, l1, l2, rfl, rfl, hr⟩
  · rintro ⟨h1, l1, l2, hl1, hl2, hr⟩
    refine ⟨⟨h1, ?_⟩, ?_⟩
    · by_contra hN
      rw [List.getElem?_eq_none (by omega)] at hl2
      cases hl2
    · simp only [hl1, hl2]
      exact hr

/-- C13: every emitted candidate stores the indices of a particle that
satisfies `l1_selection_` (as `l1_idx`) and of a particle that satisfies
`l2_selection_` (as `l2_idx`).  A particle that fails `l1_selection_` is the
`l1_idx` of no candidate and of no fit; a particle that fails `l2_selection_`
can still be the `l1_idx` of a candidate (lepton 1 of the example).  For a
collection of three particles of which particles 1 and 2 fail the lep1
selection, the output has at most two candidates, each storing (0,1) or (0,2),
and no fit is made for the pair (1,2). -/
theorem lepton_selections_on_members (b : DiLeptonBuilder L F) (sv : Services L T TT F)
    (leptons : List L) :
    (∀ c ∈ (produceLoop b sv leptons).ret_value, ∃ (i j : Nat) (l1 l2 : L),
      leptons[i]? = some l1 ∧ leptons[j]? = some l2 ∧
      c.userInt "l1_idx" = some (i : Int) ∧ c.userInt "l2_idx" = some (j : Int) ∧
      b.l1_selection_ l1 = true ∧ b.l2_selection_ l2 = true) ∧
    (∀ (i : Nat) (l1 : L), leptons[i]? = some l1 → b.l1_selection_ l1 = false →
      (∀ c ∈ (produceLoop b sv leptons).ret_value, c.userInt "l1_idx" ≠ some (i : Int)) ∧
      ∀ j, (i, j) ∉ (produceLoop b sv leptons).fits) ∧
    (exLeptons[0]? = some 1 ∧ exFirstOnly.l2_selection_ 1 = false ∧
      fittedCandidate exSv 0 1 1 2 ∈ (produceLoop exFirstOnly exSv exLeptons).ret_value ∧
      (fittedCandidate exSv 0 1 1 2).userInt "l1_idx" = some 0) ∧
    (∀ a1 a2 a3 : L, leptons = [a1, a2, a3] →
      b.l1_selection_ a2 = false → b.l1_selection_ a3 = false →
      (produceLoop b sv leptons).ret_value.length ≤ 2 ∧
      (∀ c ∈ (produceLoop b sv leptons).ret_value,
        storedPair c = some (0, 1) ∨ storedPair c = some (0, 2)) ∧
      (1, 2) ∉ (produceLoop b sv leptons).fits) := by
  refine ⟨?_, ?_, ?_, ?_⟩
  · intro c hc
    obtain ⟨i, j, l1, l2, _, h1, h2, hk, rfl⟩ := (mem_output b sv leptons c).1 hc
    simp only [kept, reachesFit, Bool.and_eq_true] at hk
    refine ⟨i, j, l1, l2, h1, h2, ?_, ?_, hk.1.1.1, hk.1.1.2⟩ <;>
      simp [CompositeCandidate.userInt, fittedCandidate_userInts]
  · intro i l1 h1 hl1
    constructor
    · intro c hc hidx
      obtain ⟨i', j', l1', l2', _, h1', _, hk, rfl⟩ := (mem_output b sv leptons c).1 hc
      simp only [CompositeCandidate.userInt, fittedCandidate_userInts, List.find?,
        beq_self_eq_true, Option.map_some', Option.some.injEq, Nat.cast_inj] at hidx
      subst hidx
      rw [h1] at h1'
      cases h1'
      simp [kept, reachesFit, hl1] at hk
    · intro j hmem
      obtain ⟨_, l1', l2', h1', _, hr⟩ := (mem_fits b sv leptons (i, j)).1 hmem
      simp only at h1'
      rw [h1] at h1'
      cases h1'
      simp [reachesFit, hl1] at hr
  · refine ⟨rfl, rfl, ?_, by decide⟩
    exact (mem_output_pair exFirstOnly exSv exLeptons 0 1 1 2 (by decide) rfl rfl).2 rfl
  · rintro a1 a2 a3 rfl h2 h3
    have hp : pairsSpec 3 = [(0, 1), (0, 2), (1, 2)] := by decide
    have hk : keptPair b sv [a1, a2, a3] (1, 2) = false := by
      simp [keptPair, keptCandidate, kept, reachesFit, h2]
    have hmap := output_storedPairs b sv [a1, a2, a3]
    simp only [List.length_cons, List.length_nil, hp] at hmap
    refine ⟨?_, ?_, ?_⟩
    · have hlen := congrArg List.length hmap
      rw [List.length_map, List.length_map] at hlen
      rw [hlen]
      simp only [List.filter, hk]
      cases keptPair b sv [a1, a2, a3] (0, 1) <;> cases keptPair b sv [a1, a2, a3] (0, 2) <;>
        simp
    · intro c hc
      have hmem : storedPair c ∈ (produceLoop b sv [a1, a2, a3]).ret_value.map storedPair :=
        List.mem_map_of_mem _ hc
      rw [hmap] at hmem
      simp only [List.filter, hk] at hmem
      cases h01 : keptPair b sv [a1, a2, a3] (0, 1) <;>
        cases h02 : keptPair b sv [a1, a2, a3] (0, 2) <;>
        simp [h01, h02, asStored] at hmem <;> simp [hmem]
    · intro hmem
      obtain ⟨_, l1', l2', h1', _, hr⟩ := (mem_fits b sv [a1, a2, a3] (1, 2)).1 hmem
      simp only [List.getElem?_cons_succ, List.getElem?_cons_zero, Option.some.injEq] at h1'
      subst h1'
      simp [reachesFit, h2] at hr

/-- C14: an emitted candidate with indices `(i, j)` has the four-momentum
`getP4(particle i) + getP4(particle j)`, the charge
`charge(particle i) + charge(particle j)`, `lep_deltaR` equal to
`deltaR(particle i, particle j)` and the stored indices `(i, j)`; these are the
values of the provisional candidate seen by the pre-fit selection, and the fit
stage leaves them unchanged whatever its outcome. -/
theorem emitted_kinematics (b : DiLeptonBuilder L F) (sv : Services L T TT F)
    (leptons : List L) (c : CompositeCandidate F)
    (hc : c ∈ (produceLoop b sv leptons).ret_value) :
    ∃ (i j : Nat) (l1 l2 : L), i < j ∧ leptons[i]? = some l1 ∧ leptons[j]? = some l2 ∧
      c.p4 = sv.lep.getP4 l1 + sv.lep.getP4 l2 ∧
      c.charge = sv.lep.charge l1 + sv.lep.charge l2 ∧
      c.userFloat "lep_deltaR" = some (sv.lep.deltaR l1 l2) ∧
      c.userInt "l1_idx" = some (i : Int) ∧ c.userInt "l2_idx" = some (j : Int) ∧
      b.pre_vtx_selection_ (provisional sv i l1 j l2) = true ∧
      c = vertexFit sv l1 l2 (provisional sv i l1 j l2) ∧
      (provisional sv i l1 j l2).p4 = c.p4 ∧
      (provisional sv i l1 j l2).charge = c.charge ∧
      (provisional sv i l1 j l2).userFloat "lep_deltaR" = c.userFloat "lep_deltaR" ∧
      (provisional sv i l1 j l2).userInts = c.userInts := by
  obtain ⟨i, j, l1, l2, hij, h1, h2, hk, rfl⟩ := (mem_output b sv leptons c).1 hc
  obtain ⟨hp4, hq, hdr, hints⟩ := fittedCandidate_frame sv i l1 j l2
  simp only [kept, reachesFit, Bool.and_eq_true] at hk
  refine ⟨i, j, l1, l2, hij, h1, h2, ?_, ?_, ?_, ?_, ?_, hk.1.2, rfl, hp4.symm, hq.symm,
    hdr.symm, hints.symm⟩
  · rw [hp4, provisional_eq]
  · rw [hq, provisional_eq]
  · rw [hdr, provisional_eq]
    simp [CompositeCandidate.userFloat, List.find?]
  · simp [CompositeCandidate.userInt, fittedCandidate_userInts]
  · simp [CompositeCandidate.userInt, fittedCandidate_userInts]

/-- Witness of C14: the candidate of leptons 1 and 2 of the example, whose fit
succeeds. -/
theorem emitted_kinematics_witness :
    fittedCandidate exSv 0 1 1 2 ∈ (produceLoop exAll exSv exLeptons).ret_value ∧
    ∃ (i j : Nat) (l1 l2 : ℕ), i < j ∧ exLeptons[i]? = some l1 ∧ exLeptons[j]? = some l2 ∧
      (fittedCandidate exSv 0 1 1 2).p4 = exSv.lep.getP4 l1 + exSv.lep.getP4 l2 ∧
      (fittedCandidate exSv 0 1 1 2).charge = exSv.lep.charge l1 + exSv.lep.charge l2 ∧
      (fittedCandidate exSv 0 1 1 2).userFloat "lep_deltaR" = some (exSv.lep.deltaR l1 l2) ∧
      (fittedCandidate exSv 0 1 1 2).userInt "l1_idx" = some (i : Int) ∧
      (fittedCandidate exSv 0 1 1 2).userInt "l2_idx" = some (j : Int) ∧
      exAll.pre_vtx_selection_ (provisional exSv i l1 j l2) = true ∧
      fittedCandidate exSv 0 1 1 2 = vertexFit exSv l1 l2 (provisional exSv i l1 j l2) ∧
      (provisional exSv i l1 j l2).p4 = (fittedCandidate exSv 0 1 1 2).p4 ∧
      (provisional exSv i l1 j l2).charge = (fittedCandidate exSv 0 1 1 2).charge ∧
      (provisional exSv i l1 j l2).userFloat "lep_deltaR" =
        (fittedCandidate exSv 0 1 1 2).userFloat "lep_deltaR" ∧
      (provisional exSv i l1 j l2).userInts = (fittedCandidate exSv 0 1 1 2).userInts :=
  have hmem : fittedCandidate exSv 0 1 1 2 ∈ (produceLoop exAll exSv exLeptons).ret_value :=
    (mem_output_pair exAll exSv exLeptons 0 1 1 2 (by decide) rfl rfl).2 rfl
  ⟨hmem, emitted_kinematics exAll exSv exLeptons _ hmem⟩

/-- C15 (as the code has it): for a bare track, `getP4` returns the four-vector
whose spatial components are `px`, `py`, `pz` of the track narrowed to `float`
(the components of the track themselves when these are `float` values) and
whose energy is the single-precision `sqrt(px*px + py*py + pz*pz)` of the
narrowed components; it is determined by the three narrowed components alone,
no mass entering.  `getTrack` on a bare track returns that track.  For the
other kinds `getP4` returns `p4()` and `getTrack` returns `bestTrack()`. -/
theorem accessors_by_kind {G : Type} [HasFloat F G] [Add G] [Mul G] [HasSqrt G]
    (lep : Track F) (plep : PatLepton F)
    (dR : Track F → Track F → F) (dR2 : PatLepton F → PatLepton F → F) :
    getP4_Track lep =
      ⟨HasFloat.widen (HasFloat.narrow lep.px), HasFloat.widen (HasFloat.narrow lep.py),
        HasFloat.widen (HasFloat.narrow lep.pz),
        HasFloat.widen (HasSqrt.sqrt
          (HasFloat.narrow lep.px * HasFloat.narrow lep.px +
            HasFloat.narrow lep.py * HasFloat.narrow lep.py +
            HasFloat.narrow lep.pz * HasFloat.narrow lep.pz))⟩ ∧
    (HasFloat.widen (HasFloat.narrow lep.px) = lep.px →
      HasFloat.widen (HasFloat.narrow lep.py) = lep.py →
      HasFloat.widen (HasFloat.narrow lep.pz) = lep.pz →
      (getP4_Track lep).px = lep.px ∧ (getP4_Track lep).py = lep.py ∧
        (getP4_Track lep).pz = lep.pz) ∧
    (∀ other : Track F, HasFloat.narrow other.px = HasFloat.narrow lep.px →
      HasFloat.narrow other.py = HasFloat.narrow lep.py →
      HasFloat.narrow other.pz = HasFloat.narrow lep.pz →
      getP4_Track other = getP4_Track lep) ∧
    getTrack_Track lep = lep ∧
    (trackAccess dR).getP4 lep = getP4_Track lep ∧
    (trackAccess dR).getTrack lep = lep ∧
    getP4 plep = plep.p4 ∧
    getTrack plep = plep.bestTrack ∧
    (patAccess dR2).getP4 plep = plep.p4 ∧
    (patAccess dR2).getTrack plep = plep.bestTrack := by
  refine ⟨rfl, ?_, ?_, rfl, rfl, rfl, rfl, rfl, rfl, rfl⟩
  · intro hx hy hz
    exact ⟨hx, hy, hz⟩
  · intro other hx hy hz
    simp only [getP4_Track, hx, hy, hz]

/-- C15 fails as stated.  The track with `px = 1 + 2^-30` gets the four-vector
`(1, 0, 0, 1)`, whose first component is not the `px` of the track.  The track
with momentum `(1, 1, 0)` gets the energy `11863283 / 2^23`, the `float` nearest
to the square root of 2, and `E*E - (px*px + py*py + pz*pz)` is not zero. -/
theorem track_p4_is_single_precision :
    getP4_Track exTrackFine = ⟨Fp.num 1, Fp.num 0, Fp.num 0, Fp.num 1⟩ ∧
    (getP4_Track exTrackFine).px ≠ exTrackFine.px ∧
    getP4_Track exTrackDiag =
      ⟨Fp.num 1, Fp.num 1, Fp.num 0, Fp.num (11863283 / 8388608)⟩ ∧
    (getP4_Track exTrackDiag).e * (getP4_Track exTrackDiag).e +
        -((getP4_Track exTrackDiag).px * (getP4_Track exTrackDiag).px +
          (getP4_Track exTrackDiag).py * (getP4_Track exTrackDiag).py +
          (getP4_Track exTrackDiag).pz * (getP4_Track exTrackDiag).pz) ≠ 0 := by
  refine ⟨?_, ?_, ?_, ?_⟩ <;> decide!

/-- C16 (as the code has it): for a pair whose fit succeeds with non-negative
covariance terms (entry (6,6), `cxx`, `cyy`, `czz`), the attributes
`fitted_massErr`, `vtx_ex`, `vtx_ey`, `vtx_ez` are the square roots of these
terms and are non-negative, the square root of a non-negative value being
non-negative. -/
theorem successful_fit_errors_nonneg [LE F] (sv : Services L T TT F) (i : Nat) (l1 : L)
    (j : Nat) (l2 : L) (fitter : KinVtxFitter F)
    (hfit : constructFitter sv l1 l2 = .ok fitter) (hs : fitter.success = true)
    (hsqrt : ∀ x : F, 0 ≤ x → 0 ≤ HasSqrt.sqrt x)
    (h66 : 0 ≤ fitter.fitted_candidate.matrix66)
    (hxx : 0 ≤ fitter.fitted_vtx_uncertainty.cxx)
    (hyy : 0 ≤ fitter.fitted_vtx_uncertainty.cyy)
    (hzz : 0 ≤ fitter.fitted_vtx_uncertainty.czz) :
    ∃ m ex ey ez : F,
      (fittedCandidate sv i l1 j l2).userFloat "fitted_massErr" = some m ∧
      (fittedCandidate sv i l1 j l2).userFloat "vtx_ex" = some ex ∧
      (fittedCandidate sv i l1 j l2).userFloat "vtx_ey" = some ey ∧
      (fittedCandidate sv i l1 j l2).userFloat "vtx_ez" = some ez ∧
      m = HasSqrt.sqrt fitter.fitted_candidate.matrix66 ∧
      ex = HasSqrt.sqrt fitter.fitted_vtx_uncertainty.cxx ∧
      ey = HasSqrt.sqrt fitter.fitted_vtx_uncertainty.cyy ∧
      ez = HasSqrt.sqrt fitter.fitted_vtx_uncertainty.czz ∧
      0 ≤ m ∧ 0 ≤ ex ∧ 0 ≤ ey ∧ 0 ≤ ez := by
  refine ⟨_, _, _, _, ?_, ?_, ?_, ?_, rfl, rfl, rfl, rfl, hsqrt _ h66, hsqrt _ hxx,
    hsqrt _ hyy, hsqrt _ hzz⟩ <;>
  · rw [fittedCandidate_ok sv i l1 j l2 fitter hfit, tryBody_eq, provisional_eq]
    simp [hs, CompositeCandidate.userFloat, List.find?]

theorem Fp_sqrt_nonneg (x : Fp) (h : 0 ≤ x) : 0 ≤ HasSqrt.sqrt x := by
  cases x with
  | nan => exact h
  | num q =>
    have hq : (0 : ℚ) ≤ q := h
    have hn : ¬ q < 0 := not_lt.2 hq
    show Fp.le (Fp.num 0) (if q < 0 then Fp.nan else Fp.num (HasSqrt.sqrt q))
    rw [if_neg hn]
    show (0 : ℚ) ≤ (Nat.sqrt q.num.toNat : ℚ) / (Nat.sqrt q.den : ℚ)
    positivity

/-- Witness of C16 (as the code has it): leptons 1 and 3 over the scalars with
`nan`, covariance terms 4, 4, 9, 16. -/
theorem successful_fit_errors_nonneg_witness :
    (constructFitter exSvFp 1 3 = .ok exPositive ∧ exPositive.success = true ∧
      (∀ x : Fp, 0 ≤ x → 0 ≤ HasSqrt.sqrt x) ∧
      0 ≤ exPositive.fitted_candidate.matrix66 ∧
      0 ≤ exPositive.fitted_vtx_uncertainty.cxx ∧
      0 ≤ exPositive.fitted_vtx_uncertainty.cyy ∧
      0 ≤ exPositive.fitted_vtx_uncertainty.czz) ∧
    ∃ m ex ey ez : Fp,
      (fittedCandidate exSvFp 0 1 2 3).userFloat "fitted_massErr" = some m ∧
      (fittedCandidate exSvFp 0 1 2 3).userFloat "vtx_ex" = some ex ∧
      (fittedCandidate exSvFp 0 1 2 3).userFloat "vtx_ey" = some ey ∧
      (fittedCandidate exSvFp 0 1 2 3).userFloat "vtx_ez" = some ez ∧
      m = HasSqrt.sqrt exPositive.fitted_candidate.matrix66 ∧
      ex = HasSqrt.sqrt exPositive.fitted_vtx_uncertainty.cxx ∧
      ey = HasSqrt.sqrt exPositive.fitted_vtx_uncertainty.cyy ∧
      ez = HasSqrt.sqrt exPositive.fitted_vtx_uncertainty.czz ∧
      0 ≤ m ∧ 0 ≤ ex ∧ 0 ≤ ey ∧ 0 ≤ ez :=
  have h4 : (0 : Fp) ≤ Fp.num 4 := show (0 : ℚ) ≤ 4 by norm_num
  have h9 : (0 : Fp) ≤ Fp.num 9 := show (0 : ℚ) ≤ 9 by norm_num
  have h16 : (0 : Fp) ≤ Fp.num 16 := show (0 : ℚ) ≤ 16 by norm_num
  ⟨⟨rfl, rfl, Fp_sqrt_nonneg, h4, h4, h9, h16⟩,
    successful_fit_errors_nonneg exSvFp 0 1 2 3 exPositive rfl rfl Fp_sqrt_nonneg h4 h4 h9 h16⟩

/-- C16 fails as stated: over the scalars with `nan`, the fit of leptons 1 and 2
succeeds and returns `cxx = -1`; the candidate carries `vtx_ex = sqrt(-1)`,
which is `nan` and not non-negative. -/
theorem negative_variance_gives_nan :
    constructFitter exSvFp 1 2 = .ok exNegative ∧ exNegative.success = true ∧
    exNegative.fitted_vtx_uncertainty.cxx = Fp.num (-1) ∧
    (fittedCandidate exSvFp 0 1 1 2).userFloat "vtx_ex" = some Fp.nan ∧
    ¬ ((0 : Fp) ≤ Fp.nan) ∧
    ¬ ∃ v, (fittedCandidate exSvFp 0 1 1 2).userFloat "vtx_ex" = some v ∧ (0 : Fp) ≤ v := by
  have hv : (fittedCandidate exSvFp 0 1 1 2).userFloat "vtx_ex" = some Fp.nan := by decide
  refine ⟨rfl, rfl, rfl, hv, fun h => h, ?_⟩
  rintro ⟨v, h1, h2⟩
  rw [hv] at h1
  cases h1
  exact h2

/-- C17: for the empty collection, whatever the selections and the fit engine,
the output collection put into the event is empty and no fitter is constructed. -/
theorem empty_collection (b : DiLeptonBuilder L F) (sv : Services L T TT F)
    (products : List (List (CompositeCandidate F))) :
    (produce b sv ⟨[], products⟩).1.products = products ++ [[]] ∧
    (produce b sv ⟨[], products⟩).1.leptons = [] ∧
    (produce b sv ⟨[], products⟩).2 = [] := by
  simp [produce, produceLoop_eq]

/-- C18 at a collection that is not ordered by transverse momentum: with the
leptons of transverse momentum 1 and 2 in this order and every selection
accepting, the only candidate stores `l1_idx = 0` and `l2_idx = 1`, so
`l1_selection_` was applied to the lepton of lower transverse momentum. -/
theorem leading_cut_on_lower_pt :
    (produceLoop exAll exSv [1, 2]).ret_value = [fittedCandidate exSv 0 1 1 2] ∧
    (fittedCandidate exSv 0 1 1 2).userInt "l1_idx" = some 0 ∧
    (fittedCandidate exSv 0 1 1 2).userInt "l2_idx" = some 1 ∧
    ([1, 2] : List ℕ)[0]? = some 1 ∧ ([1, 2] : List ℕ)[1]? = some 2 ∧
    exPt 1 < exPt 2 ∧ ¬ (exPt 1 ≥ exPt 2) := by
  have hk : kept exAll exSv 0 1 1 2 = true := rfl
  refine ⟨by simp [produceLoop_two, hk], by decide, by decide, rfl, rfl, ?_, ?_⟩ <;>
    simp [exPt]

theorem filterMap_sublist_of_tighter {α β : Type} (f g : α → Option β) (l : List α)
    (h : ∀ a, f a = none ∨ f a = g a) : (l.filterMap f).Sublist (l.filterMap g) := by
  induction l with
  | nil => exact List.Sublist.refl _
  | cons a l ih =>
    rcases h a with hf | hf
    · rw [List.filterMap_cons_none hf]
      cases hg : g a with
      | none =>
        rw [List.filterMap_cons_none hg]
        exact ih
      | some c =>
        rw [List.filterMap_cons_some hg]
        exact List.Sublist.cons _ ih
    · cases hg : g a with
      | none =>
        rw [List.filterMap_cons_none hg, List.filterMap_cons_none (hf.trans hg)]
        exact ih
      | some c =>
        rw [List.filterMap_cons_some hg, List.filterMap_cons_some (hf.trans hg)]
        exact List.Sublist.cons₂ _ ih

/-- C19: when each of the four selections is replaced by one that implies it
(in particular when only one of them is tightened), the new output is a
sublist of the original output: the surviving candidates are the same values
in the same relative order. -/
theorem tightening_selections (b tight : DiLeptonBuilder L F) (sv : Services L T TT F)
    (leptons : List L)
    (hl1 : ∀ l, tight.l1_selection_ l = true → b.l1_selection_ l = true)
    (hl2 : ∀ l, tight.l2_selection_ l = true → b.l2_selection_ l = true)
    (hpre : ∀ c, tight.pre_vtx_selection_ c = true → b.pre_vtx_selection_ c = true)
    (hpost : ∀ c, tight.post_vtx_selection_ c = true → b.post_vtx_selection_ c = true) :
    (produceLoop tight sv leptons).ret_value.Sublist (produceLoop b sv leptons).ret_value := by
  rw [produceLoop_ret_value, produceLoop_ret_value, outputSpec, outputSpec]
  apply filterMap_sublist_of_tighter
  intro p
  unfold keptCandidate
  cases leptons[p.1]? with
  | none => exact Or.inl rfl
  | some l1 =>
    cases leptons[p.2]? with
    | none => exact Or.inl rfl
    | some l2 =>
      cases hk : kept tight sv p.1 l1 p.2 l2
      · exact Or.inl (by simp [hk])
      · have hk2 : kept b sv p.1 l1 p.2 l2 = true := by
          simp only [kept, reachesFit, Bool.and_eq_true] at hk ⊢
          exact ⟨⟨⟨hl1 _ hk.1.1.1, hl2 _ hk.1.1.2⟩, hpre _ hk.1.2⟩, hpost _ hk.2⟩
        exact Or.inr (by simp [hk, hk2])

/-- Witness of C19: the lepton selections of the example that keep lepton 1 as
first member only, against the selections that accept everything. -/
theorem tightening_selections_witness :
    ((∀ l, exFirstOnly.l1_selection_ l = true → exAll.l1_selection_ l = true) ∧
      (∀ l, exFirstOnly.l2_selection_ l = true → exAll.l2_selection_ l = true) ∧
      (∀ c, exFirstOnly.pre_vtx_selection_ c = true → exAll.pre_vtx_selection_ c = true) ∧
      (∀ c, exFirstOnly.post_vtx_selection_ c = true → exAll.post_vtx_selection_ c = true)) ∧
    (produceLoop exFirstOnly exSv exLeptons).ret_value.Sublist
      (produceLoop exAll exSv exLeptons).ret_value :=
  ⟨⟨fun _ _ => rfl, fun _ _ => rfl, fun _ _ => rfl, fun _ _ => rfl⟩,
    tightening_selections exAll exFirstOnly exSv exLeptons (fun _ _ => rfl) (fun _ _ => rfl)
      (fun _ _ => rfl) (fun _ _ => rfl)⟩

/-- C20: the number of candidates in the output is at most the number of fitter
constructions, which is at most `N * (N - 1) / 2`.  The trace of fitter
constructions is a sublist of the enumeration of the pairs `(i, j)`,
`i < j < N`, which has no repetition, and the stored pairs of the output are a
sublist of that trace: the double loop ends having taken each pair at most
once. -/
theorem output_and_fit_counts (b : DiLeptonBuilder L F) (sv : Services L T TT F)
    (evt : Event L F) :
    ∃ out, (produce b sv evt).1.products = evt.products ++ [out] ∧
      out.length ≤ (produce b sv evt).2.length ∧
      (produce b sv evt).2.length ≤ evt.leptons.length * (evt.leptons.length - 1) / 2 ∧
      (produce b sv evt).2.Sublist (pairsSpec evt.leptons.length) ∧
      (pairsSpec evt.leptons.length).Nodup ∧
      (∀ p ∈ pairsSpec evt.leptons.length, p.1 < p.2 ∧ p.2 < evt.leptons.length) ∧
      (out.map storedPair).Sublist ((produce b sv evt).2.map asStored) := by
  have hfits : (produce b sv evt).2 =
      (pairsSpec evt.leptons.length).filter (fitRequested b sv evt.leptons) := by
    simp only [produce, produceLoop_fits, fitsSpec]
  have hsub : ((produceLoop b sv evt.leptons).ret_value.map storedPair).Sublist
      ((produce b sv evt).2.map asStored) := by
    rw [hfits, output_storedPairs]
    apply List.Sublist.map
    apply List.monotone_filter_right
    intro p hp
    unfold keptPair keptCandidate at hp
    unfold fitRequested
    cases h1 : evt.leptons[p.1]? with
    | none => simp [h1] at hp
    | some l1 =>
      cases h2 : evt.leptons[p.2]? with
      | none => simp [h1, h2] at hp
      | some l2 =>
        simp only [h1, h2] at hp ⊢
        cases hk : kept b sv p.1 l1 p.2 l2
        · simp [hk] at hp
        · simp only [kept, Bool.and_eq_true] at hk
          exact hk.1
  have hfs : (produce b sv evt).2.Sublist (pairsSpec evt.leptons.length) := by
    rw [hfits]
    exact List.filter_sublist _
  refine ⟨(produceLoop b sv evt.leptons).ret_value, rfl, ?_, ?_, hfs, pairsSpec_nodup _,
    fun p hp => (mem_pairsSpec _ p).1 hp, hsub⟩
  · have hlen := hsub.length_le
    rw [List.length_map, List.length_map] at hlen
    exact hlen
  · have hlen := hfs.length_le
    rw [length_pairsSpec] at hlen
    exact hlen

end Claims

end NanoProd
